import Mathlib

/-!
Verification of the Atlas project scaffolding tool (`tools/atlas_init.py`).

The Python tool renders a fixed set of text templates from the inputs
`(name, namespace, version)` and materializes them on disk.  This file gives a
shallow embedding of the tool:

* each `create_*` rendering function is translated to a Lean `String` function
  that produces exactly the bytes the Python function returns (Python f-strings
  become `++`-concatenations; `json.dumps(..., indent=4)` output is spelled out
  key by key in Python's insertion order, with `ensure_ascii` escaping modelled
  by `jsonEscape`);
* the filesystem is modelled as explicit state (`FileSystem`), and `main` as a
  function from the CLI inputs and the initial filesystem to an exit code, the
  error-stream lines, and the resulting filesystem.

On top of the embedding, token-extraction functions recover identifiers from
rendered artifacts (the namespace token of a namespace declaration line, the
value of a TOML/JSON key, a build-target name), which lets the cross-file
consistency and content claims be stated about the rendered bytes themselves.
-/

/-! ## Character classes and identifier validation

The spec requires `name` to match `[A-Za-z][A-Za-z0-9_]*` and `namespace` to
match `[a-z][a-z0-9_]*`.  Characters are classified by code point. -/

/-- Characters matching `[A-Za-z0-9_]`: one character of a C-style identifier. -/
def isIdentChar (c : Char) : Bool :=
  (65 ≤ c.toNat && c.toNat ≤ 90) || (97 ≤ c.toNat && c.toNat ≤ 122) ||
    (48 ≤ c.toNat && c.toNat ≤ 57) || (c.toNat == 95)

/-- Characters matching `[A-Za-z]`. -/
def isAlphaAscii (c : Char) : Bool :=
  (65 ≤ c.toNat && c.toNat ≤ 90) || (97 ≤ c.toNat && c.toNat ≤ 122)

/-- Characters matching `[a-z0-9_]`. -/
def isLowerIdentChar (c : Char) : Bool :=
  (97 ≤ c.toNat && c.toNat ≤ 122) || (48 ≤ c.toNat && c.toNat ≤ 57) || (c.toNat == 95)

/-- The project `name` must match `[A-Za-z][A-Za-z0-9_]*` (spec §4.1). -/
def validName (s : String) : Bool :=
  match s.data with
  | [] => false
  | c :: cs => isAlphaAscii c && cs.all isIdentChar

/-- The C++ `namespace` must match `[a-z][a-z0-9_]*` (spec §4.1). -/
def validNs (s : String) : Bool :=
  match s.data with
  | [] => false
  | c :: cs => (97 ≤ c.toNat && c.toNat ≤ 122) && cs.all isLowerIdentChar

/-! ## Python string/JSON primitives used by the renderers -/

/-- ASCII fragment of Python's `str.upper` (the only fragment exercised by
valid names, which are ASCII identifiers). -/
def pyUpperChar (c : Char) : Char :=
  if 97 ≤ c.toNat && c.toNat ≤ 122 then Char.ofNat (c.toNat - 32) else c

def pyUpper (s : String) : String := String.mk (s.data.map pyUpperChar)

/-- Lowercase hexadecimal digit, as produced by `json.dumps` escapes. -/
def hexDigit (n : Nat) : Char :=
  if n < 10 then Char.ofNat (48 + n) else Char.ofNat (87 + n)

/-- Four-digit lowercase hex, the `XXXX` of a `\uXXXX` escape. -/
def hex4 (n : Nat) : List Char :=
  [hexDigit (n / 4096 % 16), hexDigit (n / 256 % 16), hexDigit (n / 16 % 16), hexDigit (n % 16)]

/-- Escaping of one character by `json.dumps` (default `ensure_ascii=True`):
quote and backslash get a backslash escape, the named control characters get
their short escapes, all other characters outside `0x20..0x7e` become
`\uXXXX` (code points above `0xffff` would use surrogate pairs in Python; no
input reaching this model has them). -/
def escChar (c : Char) : List Char :=
  if c.toNat = 34 then ['\\', '"']
  else if c.toNat = 92 then ['\\', '\\']
  else if c.toNat = 10 then ['\\', 'n']
  else if c.toNat = 9 then ['\\', 't']
  else if c.toNat = 13 then ['\\', 'r']
  else if c.toNat = 8 then ['\\', 'b']
  else if c.toNat = 12 then ['\\', 'f']
  else if c.toNat < 32 ∨ 126 < c.toNat then '\\' :: 'u' :: hex4 c.toNat
  else [c]

def jsonEscape (s : String) : String := String.mk (s.data.flatMap escChar)

/-- A JSON string literal as `json.dumps` renders it. -/
def jsonStr (s : String) : String := "\"" ++ jsonEscape s ++ "\""

/-! ## Template renderers (from `tools/atlas_init.py`)

Each function returns exactly the string the Python function returns.  The
Python `version="0.1.0"` default parameters are modelled by passing `"0.1.0"`
explicitly at the call sites that omit the argument (`main` omits it at both
call sites). -/

/-- Renderer `create_project_file`: the `.atlas` project manifest,
`json.dumps({...}, indent=4) + "\n"` in insertion order. -/
def create_project_file (name ns version : String) : String :=
  "\x7b\n    \"schema\": \"atlas.project.v1\",\n    \"name\": " ++ jsonStr (pyUpper name) ++
    ",\n    \"version\": " ++ jsonStr version ++
    ",\n    \"description\": " ++ jsonStr (name ++ " — built on Atlas Engine") ++
    ",\n    \"modules\": \x7b\n        \"worldGraph\": \"worlds/main.worldgraph\",\n        \"tileGraphs\": \"worlds/\",\n        \"strategyGraphs\": \"strategy/\",\n        \"conversationGraphs\": \"conversations/\",\n        \"behaviorGraphs\": \"ai/\",\n        \"ai\": true,\n        \"content\": \"data/\"\n    \x7d,\n    \"runtime\": \x7b\n        \"entryWorld\": \"worlds/main.worldgraph\",\n        \"tickRate\": 30,\n        \"maxPlayers\": 20\n    \x7d,\n    \"assets\": \x7b\n        \"root\": \"assets\"\n    \x7d,\n    \"config\": \"config/runtime.json\"\n\x7d\n"

/-- Renderer `create_plugin_toml`: the `Plugin.toml` plugin descriptor. -/
def create_plugin_toml (name ns version : String) : String :=
  "[plugin]\nid = \"" ++ ns ++ "\"\nname = \"" ++ name ++ "\"\nversion = \"" ++ version ++
    "\"\ntype = \"game\"\n\n[engine]\nrequired_version = \">=0.1.0\"\ndeterminism = true\nrollback = true\nserver_authoritative = true\n\n[capabilities]\nuses_graphs = true\nuses_schemas = true\nuses_assetgraph = true\nuses_networking = true\nuses_ai_assist = false\n\n[content]\nschemas_path = \"Schemas\"\ngraphs_path = \"worlds\"\nstrategy_path = \"strategy\"\nconversations_path = \"conversations\"\nassets_path = \"assets\"\ndata_path = \"data\"\nconfig_path = \"config\"\n\n[code]\nadapters_path = \"Code/Adapters\"\nentry_point = \"Code/GameInit.cpp\"\n\n[editor]\nshow_in_launcher = true\ndefault_project = true\n\n[testing]\ntest_path = \"Tests\"\ngolden_required = true\n"

/-- Renderer `create_root_cmakelists`: the top-level `CMakeLists.txt`. -/
def create_root_cmakelists (name : String) : String :=
  "cmake_minimum_required(VERSION 3.20)\nproject(" ++ name ++
    " LANGUAGES CXX)\nset(CMAKE_CXX_STANDARD 17)\n\nfind_package(AtlasEngine REQUIRED)\nfind_package(AtlasGameplay REQUIRED)\n\nadd_subdirectory(module)\n"

/-- Renderer `create_module_cmakelists`: the `module/CMakeLists.txt`. -/
def create_module_cmakelists (name : String) : String :=
  "add_library(" ++ name ++ "Module SHARED\n    " ++ name ++
    "Module.cpp\n)\n\ntarget_include_directories(" ++ name ++
    "Module PUBLIC $\x7bCMAKE_CURRENT_SOURCE_DIR\x7d)\ntarget_link_libraries(" ++ name ++
    "Module PRIVATE Atlas::AtlasEngine Atlas::AtlasGameplay)\n"

/-- Renderer `create_module_header`: the `module/\x7bname\x7dModule.h` header. -/
def create_module_header (name ns : String) : String :=
  "#pragma once\n#include <engine/module/IGameModule.h>\n\nnamespace " ++ ns ++
    " \x7b\n\nclass " ++ name ++
    "Module : public atlas::module::IGameModule \x7b\npublic:\n    atlas::module::GameModuleDesc Describe() const override;\n    void RegisterTypes(atlas::module::GameModuleContext& ctx) override;\n    void ConfigureReplication(atlas::module::GameModuleContext& ctx) override;\n    void ConfigureServerRules(atlas::module::GameModuleContext& ctx) override;\n    void OnStart(atlas::module::GameModuleContext& ctx) override;\n    void OnTick(atlas::module::GameModuleContext& ctx, float dt) override;\n    void OnShutdown(atlas::module::GameModuleContext& ctx) override;\n\nprivate:\n    bool m_started = false;\n    uint32_t m_tickCount = 0;\n\x7d;\n\n\x7d // namespace " ++ ns ++ "\n"

/-- Renderer `create_module_source`: the `module/\x7bname\x7dModule.cpp` implementation. -/
def create_module_source (name ns : String) : String :=
  "#include \"" ++ name ++ "Module.h\"\n\nnamespace " ++ ns ++
    " \x7b\n\natlas::module::GameModuleDesc " ++ name ++
    "Module::Describe() const \x7b\n    return \x7b\"" ++ name ++
    "\", 1\x7d;\n\x7d\n\nvoid " ++ name ++
    "Module::RegisterTypes(atlas::module::GameModuleContext& ctx) \x7b\n    (void)ctx;\n\x7d\n\nvoid " ++ name ++
    "Module::ConfigureReplication(atlas::module::GameModuleContext& ctx) \x7b\n    (void)ctx;\n\x7d\n\nvoid " ++ name ++
    "Module::ConfigureServerRules(atlas::module::GameModuleContext& ctx) \x7b\n    (void)ctx;\n\x7d\n\nvoid " ++ name ++
    "Module::OnStart(atlas::module::GameModuleContext& ctx) \x7b\n    (void)ctx;\n    m_started = true;\n\x7d\n\nvoid " ++ name ++
    "Module::OnTick(atlas::module::GameModuleContext& ctx, float dt) \x7b\n    (void)ctx;\n    (void)dt;\n    ++m_tickCount;\n\x7d\n\nvoid " ++ name ++
    "Module::OnShutdown(atlas::module::GameModuleContext& ctx) \x7b\n    (void)ctx;\n    m_started = false;\n    m_tickCount = 0;\n\x7d\n\n\x7d // namespace " ++ ns ++
    "\n\n// Factory function for dynamic loading\nextern \"C\" atlas::module::IGameModule* CreateGameModule() \x7b\n    return new " ++ ns ++ "::" ++ name ++ "Module();\n\x7d\n"

/-- Renderer `create_runtime_json`: the default runtime configuration; the Python
function takes no parameters, so this is a constant string. -/
def create_runtime_json : String :=
  "\x7b\n    \"schema\": \"atlas.config.v1\",\n    \"tickRate\": 30,\n    \"maxPlayers\": 20,\n    \"networkMode\": \"client_server\",\n    \"deterministic\": true,\n    \"serverRules\": \x7b\x7d\n\x7d\n"

/-! ## Filesystem model and `main` -/

/-- POSIX `os.path.join` for the two-argument shapes used by the tool. -/
def os_path_join (a b : String) : String :=
  if b.data.head? = some '/' then b
  else if a = "" then b
  else if a.data.getLast? = some '/' then a ++ b
  else a ++ "/" ++ b

/-- Filesystem state: the set of directories and a path-to-content map for
regular files (association list, at most one entry per path). -/
structure FileSystem where
  dirs : List String
  files : List (String × String)
  deriving DecidableEq

def emptyFS : FileSystem := FileSystem.mk [] []

/-- Model of `os.path.exists`: true for both directories and files. -/
def FileSystem.existsPath (fs : FileSystem) (p : String) : Bool :=
  fs.dirs.contains p || (fs.files.map Prod.fst).contains p

/-- Model of `os.makedirs(d, exist_ok=True)`, at the granularity the tool relies on:
record `d` as a directory (idempotent). -/
def FileSystem.makedirs (fs : FileSystem) (d : String) : FileSystem :=
  if fs.dirs.contains d then fs else FileSystem.mk (fs.dirs ++ [d]) fs.files

/-- Association-list update: `open(path, "w").write(content)`. -/
def setFile : List (String × String) → String → String → List (String × String)
  | [], p, c => [(p, c)]
  | e :: rest, p, c => if e.1 = p then (p, c) :: rest else e :: setFile rest p c

def FileSystem.writeFile (fs : FileSystem) (p c : String) : FileSystem :=
  FileSystem.mk fs.dirs (setFile fs.files p c)

/-- The directory list `main` creates (`dirs = [...]`), parent before child. -/
def planDirs (project_dir : String) : List String :=
  [project_dir,
   os_path_join project_dir "module",
   os_path_join project_dir "assets",
   os_path_join project_dir "data",
   os_path_join project_dir "config"]

/-- The file dictionary `main` writes (`files = {...}`), in insertion order.
Both renderer calls that take a version omit it in the Python source, so the
default `"0.1.0"` is passed here. -/
def planFiles (project_dir name ns : String) : List (String × String) :=
  [(os_path_join project_dir (name ++ ".atlas"), create_project_file name ns "0.1.0"),
   (os_path_join project_dir "Plugin.toml", create_plugin_toml name ns "0.1.0"),
   (os_path_join project_dir "CMakeLists.txt", create_root_cmakelists name),
   (os_path_join (os_path_join project_dir "module") "CMakeLists.txt", create_module_cmakelists name),
   (os_path_join (os_path_join project_dir "module") (name ++ "Module.h"), create_module_header name ns),
   (os_path_join (os_path_join project_dir "module") (name ++ "Module.cpp"), create_module_source name ns),
   (os_path_join (os_path_join project_dir "config") "runtime.json", create_runtime_json)]

/-- Result of one tool invocation: exit code, error-stream lines, final
filesystem. -/
structure RunResult where
  exitCode : Nat
  errLines : List String
  fs : FileSystem
  deriving DecidableEq

/-- Model of `main()` of `tools/atlas_init.py`: argument parsing and stdout reporting
are outside the model; `name`, `ns` and `dir` are the parsed CLI values
(`--dir` defaults to `"."`).  Note the Python code performs no validation of
`name` or `ns` before the existence check. -/
def atlas_init_main (name ns dir : String) (fs : FileSystem) : RunResult :=
  let project_dir := os_path_join dir name
  if fs.existsPath project_dir then
    RunResult.mk 1 ["Error: Directory already exists: " ++ project_dir] fs
  else
    let fs1 := (planDirs project_dir).foldl FileSystem.makedirs fs
    let fs2 := (planFiles project_dir name ns).foldl
      (fun a e => FileSystem.writeFile a e.1 e.2) fs1
    RunResult.mk 0 [] fs2

/-! ## Line structure of rendered artifacts

`splitLines` splits a character list at newlines (the list-level counterpart
of `str.splitlines` / reading the artifact line by line); `joinNL` re-joins
newline-terminated lines.  Every artifact the tool renders is a sequence of
newline-terminated lines, so its `splitLines` is computed once per artifact
and reused by all content/consistency theorems. -/

def splitLines : List Char → List (List Char)
  | [] => [[]]
  | c :: rest =>
    if c.toNat = 10 then [] :: splitLines rest
    else (splitLines rest).modifyHead (fun l => c :: l)

def notNL (c : Char) : Bool := c.toNat ≠ 10

def joinNL : List (List Char) → List Char
  | [] => []
  | l :: ls => l ++ '\n' :: joinNL ls

theorem splitLines_ne_nil (l : List Char) : splitLines l ≠ [] := by
  induction l with
  | nil => simp [splitLines]
  | cons c rest ih =>
    simp only [splitLines]
    split
    · simp
    · intro h
      exact ih (List.modifyHead_eq_nil_iff.mp h)

theorem splitLines_cons_nl (l : List Char) : splitLines ('\n' :: l) = [] :: splitLines l := by
  simp [splitLines]

theorem splitLines_cons_other (c : Char) (l : List Char) (h : notNL c = true) :
    splitLines (c :: l) = (splitLines l).modifyHead (fun t => c :: t) := by
  simp only [splitLines]
  rw [if_neg]
  simp [notNL] at h
  exact h

theorem splitLines_append_nlfree (v l : List Char) (h : v.all notNL = true) :
    splitLines (v ++ l) = (splitLines l).modifyHead (fun t => v ++ t) := by
  induction v with
  | nil =>
    cases hsl : splitLines l <;> simp [List.modifyHead, hsl]
  | cons c v ih =>
    simp only [List.all_cons, Bool.and_eq_true] at h
    simp only [List.cons_append]
    rw [splitLines_cons_other c _ h.1, ih h.2]
    cases hsl : splitLines l with
    | nil => exact absurd hsl (splitLines_ne_nil l)
    | cons a as => simp [List.modifyHead]

/-- An artifact that is a sequence of newline-terminated newline-free lines
splits into exactly those lines (plus the empty tail after the final
newline). -/
theorem splitLines_joinNL (L : List (List Char)) (h : ∀ l ∈ L, l.all notNL = true) :
    splitLines (joinNL L) = L ++ [[]] := by
  induction L with
  | nil => simp [joinNL, splitLines]
  | cons l ls ih =>
    simp only [joinNL]
    rw [splitLines_append_nlfree l _ (h l (by simp)), splitLines_cons_nl,
      ih (fun x hx => h x (by simp [hx]))]
    simp [List.modifyHead]

/-! ## Token extraction from rendered artifacts

`extractTok marker good content` scans the artifact line by line, finds the
first line starting with `marker`, and returns the maximal run of `good`
characters that follows the marker on that line.  This is how the
consistency claims read identifiers back out of the rendered bytes: e.g. the
namespace token of a `namespace <ns> {` declaration line, or the value of a
`key = "<value>"` TOML line. -/

def lineToken (marker : List Char) (good : Char → Bool) (line : List Char) : Option (List Char) :=
  if marker.isPrefixOf line then some ((line.drop marker.length).takeWhile good) else none

def extractTok (marker : String) (good : Char → Bool) (content : String) : Option String :=
  ((splitLines content.data).findSome? (lineToken marker.data good)).map String.mk

/-- Any character except a double quote: the value of a quoted TOML/JSON
string runs to the closing quote. -/
def notQuote (c : Char) : Bool := c.toNat ≠ 34

/-- Identifier or `::`, for C++ qualified names such as `ns::NameModule`. -/
def isQualChar (c : Char) : Bool := isIdentChar c || c.toNat == 58

/-- Namespace token of the first `namespace <ns> {`-style declaration line. -/
def namespaceToken (content : String) : Option String :=
  extractTok "namespace " isIdentChar content

/-- Class-name token of the first `class <Name> ...` declaration line. -/
def classToken (content : String) : Option String :=
  extractTok "class " isIdentChar content

/-- Target of the first `add_library(<target> ...` line of a CMake file. -/
def addLibraryTarget (content : String) : Option String :=
  extractTok "add_library(" isIdentChar content

/-- Qualified class name instantiated by the factory's `return new <q>();`. -/
def factoryClassToken (content : String) : Option String :=
  extractTok "    return new " isQualChar content

/-- Value of the `id = "<v>"` line of the plugin descriptor. -/
def pluginIdToken (content : String) : Option String :=
  extractTok "id = \"" notQuote content

/-- Value of the `name = "<v>"` line of the plugin descriptor. -/
def pluginNameToken (content : String) : Option String :=
  extractTok "name = \"" notQuote content

/-- Value of the `version = "<v>"` line of the plugin descriptor. -/
def pluginVersionToken (content : String) : Option String :=
  extractTok "version = \"" notQuote content

/-- Value of the `entry_point = "<v>"` line of the plugin descriptor. -/
def pluginEntryPoint (content : String) : Option String :=
  extractTok "entry_point = \"" notQuote content

/-- Value of the top-level `"name"` key of the manifest. -/
def manifestNameValue (content : String) : Option String :=
  extractTok "    \"name\": \"" notQuote content

/-- Value of the top-level `"version"` key of the manifest. -/
def manifestVersionValue (content : String) : Option String :=
  extractTok "    \"version\": \"" notQuote content

/-- Value of the top-level `"description"` key of the manifest. -/
def manifestDescriptionValue (content : String) : Option String :=
  extractTok "    \"description\": \"" notQuote content

/-- Whether the pattern occurs as a contiguous substring. -/
def hasSubstring (m : List Char) : List Char → Bool
  | [] => m.isEmpty
  | c :: rest => m.isPrefixOf (c :: rest) || hasSubstring m rest

def occursIn (pat s : String) : Bool := hasSubstring pat.data s.data

/-! ## General helper lemmas -/

theorem takeWhile_append_stop (p : Char → Bool) (v w : List Char)
    (hv : v.all p = true) (hw : w.takeWhile p = []) :
    (v ++ w).takeWhile p = v := by
  induction v with
  | nil => simpa using hw
  | cons c v ih =>
    simp only [List.all_cons, Bool.and_eq_true] at hv
    simp [List.takeWhile_cons, hv.1, ih hv.2]

theorem findSome?_cons_none {α β : Type} (f : α → Option β) (a : α) (l : List α)
    (h : f a = none) : List.findSome? f (a :: l) = List.findSome? f l := by
  simp [List.findSome?_cons, h]

theorem findSome?_cons_some {α β : Type} (f : α → Option β) (a : α) (l : List α) (b : β)
    (h : f a = some b) : List.findSome? f (a :: l) = some b := by
  simp [List.findSome?_cons, h]

theorem validName_all_ident (s : String) (h : validName s = true) :
    s.data.all isIdentChar = true := by
  unfold validName at h
  cases hs : s.data with
  | nil => rw [hs] at h; exact absurd h (by simp)
  | cons c cs =>
    rw [hs] at h
    simp only [Bool.and_eq_true] at h
    simp only [List.all_cons, Bool.and_eq_true]
    refine ⟨?_, h.2⟩
    have := h.1
    simp only [isAlphaAscii, isIdentChar, Bool.or_eq_true, Bool.and_eq_true,
      decide_eq_true_eq, beq_iff_eq] at this ⊢
    tauto

theorem all_mono {p q : Char → Bool} (hpq : ∀ c, p c = true → q c = true)
    (l : List Char) (h : l.all p = true) : l.all q = true := by
  simp only [List.all_eq_true] at h ⊢
  exact fun c hc => hpq c (h c hc)

theorem validNs_all_ident (s : String) (h : validNs s = true) :
    s.data.all isIdentChar = true := by
  unfold validNs at h
  cases hs : s.data with
  | nil => rw [hs] at h; exact absurd h (by simp)
  | cons c cs =>
    rw [hs] at h
    simp only [Bool.and_eq_true] at h
    simp only [List.all_cons, Bool.and_eq_true]
    constructor
    · have := h.1
      simp only [isIdentChar, Bool.or_eq_true, Bool.and_eq_true,
        decide_eq_true_eq, beq_iff_eq] at this ⊢
      tauto
    · refine all_mono ?_ cs h.2
      intro c hc
      simp only [isLowerIdentChar, isIdentChar, Bool.or_eq_true, Bool.and_eq_true,
        decide_eq_true_eq, beq_iff_eq] at hc ⊢
      tauto

theorem ident_notNL (c : Char) (h : isIdentChar c = true) : notNL c = true := by
  simp only [isIdentChar, Bool.or_eq_true, Bool.and_eq_true, decide_eq_true_eq,
    beq_iff_eq, notNL, ne_eq, decide_eq_true_eq] at h ⊢
  omega

theorem all_ident_notNL (l : List Char) (h : l.all isIdentChar = true) :
    l.all notNL = true :=
  all_mono ident_notNL l h

theorem ident_notQuote (c : Char) (h : isIdentChar c = true) : notQuote c = true := by
  simp only [isIdentChar, Bool.or_eq_true, Bool.and_eq_true, decide_eq_true_eq,
    beq_iff_eq, notQuote, ne_eq, decide_eq_true_eq] at h ⊢
  omega

theorem all_ident_notQuote (l : List Char) (h : l.all isIdentChar = true) :
    l.all notQuote = true :=
  all_mono ident_notQuote l h

/-! ## Line decompositions of the rendered artifacts -/

/-- The lines of the rendered module header. -/
def headerLines (name ns : String) : List (List Char) :=
  ["#pragma once".data,
   "#include <engine/module/IGameModule.h>".data,
   [],
   "namespace ".data ++ ns.data ++ " \x7b".data,
   [],
   "class ".data ++ name.data ++ "Module : public atlas::module::IGameModule \x7b".data,
   "public:".data,
   "    atlas::module::GameModuleDesc Describe() const override;".data,
   "    void RegisterTypes(atlas::module::GameModuleContext& ctx) override;".data,
   "    void ConfigureReplication(atlas::module::GameModuleContext& ctx) override;".data,
   "    void ConfigureServerRules(atlas::module::GameModuleContext& ctx) override;".data,
   "    void OnStart(atlas::module::GameModuleContext& ctx) override;".data,
   "    void OnTick(atlas::module::GameModuleContext& ctx, float dt) override;".data,
   "    void OnShutdown(atlas::module::GameModuleContext& ctx) override;".data,
   [],
   "private:".data,
   "    bool m_started = false;".data,
   "    uint32_t m_tickCount = 0;".data,
   "\x7d;".data,
   [],
   "\x7d // namespace ".data ++ ns.data]

set_option maxRecDepth 8000 in
theorem header_split (name ns : String)
    (hname : name.data.all notNL = true) (hns : ns.data.all notNL = true) :
    splitLines (create_module_header name ns).data = headerLines name ns ++ [[]] := by
  have hcond : ∀ l ∈ headerLines name ns, l.all notNL = true := by
    intro l hm
    fin_cases hm
    all_goals first
      | decide
      | (simp only [List.all_append, hname, hns, Bool.and_true, Bool.true_and]; decide)
  have hl : (create_module_header name ns).data = joinNL (headerLines name ns) := by
    simp only [create_module_header, String.data_append, joinNL, headerLines]
    simp [List.append_assoc]
  rw [hl, splitLines_joinNL _ hcond]

/-- The lines of the rendered module source. -/
def sourceLines (name ns : String) : List (List Char) :=
  ["#include \"".data ++ name.data ++ "Module.h\"".data,
   [],
   "namespace ".data ++ ns.data ++ " \x7b".data,
   [],
   "atlas::module::GameModuleDesc ".data ++ name.data ++ "Module::Describe() const \x7b".data,
   "    return \x7b\"".data ++ name.data ++ "\", 1\x7d;".data,
   "\x7d".data,
   [],
   "void ".data ++ name.data ++ "Module::RegisterTypes(atlas::module::GameModuleContext& ctx) \x7b".data,
   "    (void)ctx;".data,
   "\x7d".data,
   [],
   "void ".data ++ name.data ++ "Module::ConfigureReplication(atlas::module::GameModuleContext& ctx) \x7b".data,
   "    (void)ctx;".data,
   "\x7d".data,
   [],
   "void ".data ++ name.data ++ "Module::ConfigureServerRules(atlas::module::GameModuleContext& ctx) \x7b".data,
   "    (void)ctx;".data,
   "\x7d".data,
   [],
   "void ".data ++ name.data ++ "Module::OnStart(atlas::module::GameModuleContext& ctx) \x7b".data,
   "    (void)ctx;".data,
   "    m_started = true;".data,
   "\x7d".data,
   [],
   "void ".data ++ name.data ++ "Module::OnTick(atlas::module::GameModuleContext& ctx, float dt) \x7b".data,
   "    (void)ctx;".data,
   "    (void)dt;".data,
   "    ++m_tickCount;".data,
   "\x7d".data,
   [],
   "void ".data ++ name.data ++ "Module::OnShutdown(atlas::module::GameModuleContext& ctx) \x7b".data,
   "    (void)ctx;".data,
   "    m_started = false;".data,
   "    m_tickCount = 0;".data,
   "\x7d".data,
   [],
   "\x7d // namespace ".data ++ ns.data,
   [],
   "// Factory function for dynamic loading".data,
   "extern \"C\" atlas::module::IGameModule* CreateGameModule() \x7b".data,
   "    return new ".data ++ ns.data ++ "::".data ++ name.data ++ "Module();".data,
   "\x7d".data]

set_option maxRecDepth 8000 in
theorem source_split (name ns : String)
    (hname : name.data.all notNL = true) (hns : ns.data.all notNL = true) :
    splitLines (create_module_source name ns).data = sourceLines name ns ++ [[]] := by
  have hcond : ∀ l ∈ sourceLines name ns, l.all notNL = true := by
    intro l hm
    fin_cases hm
    all_goals first
      | decide
      | (simp only [List.all_append, hname, hns, Bool.and_true, Bool.true_and]; decide)
  have hl : (create_module_source name ns).data = joinNL (sourceLines name ns) := by
    simp only [create_module_source, String.data_append, joinNL, sourceLines]
    simp [List.append_assoc]
  rw [hl, splitLines_joinNL _ hcond]

/-- The lines of the rendered module build file. -/
def moduleCmakeLines (name : String) : List (List Char) :=
  ["add_library(".data ++ name.data ++ "Module SHARED".data,
   "    ".data ++ name.data ++ "Module.cpp".data,
   ")".data,
   [],
   "target_include_directories(".data ++ name.data ++ "Module PUBLIC $\x7bCMAKE_CURRENT_SOURCE_DIR\x7d)".data,
   "target_link_libraries(".data ++ name.data ++ "Module PRIVATE Atlas::AtlasEngine Atlas::AtlasGameplay)".data]

set_option maxRecDepth 8000 in
theorem module_cmake_split (name : String) (hname : name.data.all notNL = true) :
    splitLines (create_module_cmakelists name).data = moduleCmakeLines name ++ [[]] := by
  have hcond : ∀ l ∈ moduleCmakeLines name, l.all notNL = true := by
    intro l hm
    fin_cases hm
    all_goals first
      | decide
      | (simp only [List.all_append, hname, Bool.and_true, Bool.true_and]; decide)
  have hl : (create_module_cmakelists name).data = joinNL (moduleCmakeLines name) := by
    simp only [create_module_cmakelists, String.data_append, joinNL, moduleCmakeLines]
    simp [List.append_assoc]
  rw [hl, splitLines_joinNL _ hcond]

/-- The lines of the rendered plugin descriptor. -/
def pluginTomlLines (name ns version : String) : List (List Char) :=
  ["[plugin]".data,
   "id = \"".data ++ ns.data ++ "\"".data,
   "name = \"".data ++ name.data ++ "\"".data,
   "version = \"".data ++ version.data ++ "\"".data,
   "type = \"game\"".data,
   [],
   "[engine]".data,
   "required_version = \">=0.1.0\"".data,
   "determinism = true".data,
   "rollback = true".data,
   "server_authoritative = true".data,
   [],
   "[capabilities]".data,
   "uses_graphs = true".data,
   "uses_schemas = true".data,
   "uses_assetgraph = true".data,
   "uses_networking = true".data,
   "uses_ai_assist = false".data,
   [],
   "[content]".data,
   "schemas_path = \"Schemas\"".data,
   "graphs_path = \"worlds\"".data,
   "strategy_path = \"strategy\"".data,
   "conversations_path = \"conversations\"".data,
   "assets_path = \"assets\"".data,
   "data_path = \"data\"".data,
   "config_path = \"config\"".data,
   [],
   "[code]".data,
   "adapters_path = \"Code/Adapters\"".data,
   "entry_point = \"Code/GameInit.cpp\"".data,
   [],
   "[editor]".data,
   "show_in_launcher = true".data,
   "default_project = true".data,
   [],
   "[testing]".data,
   "test_path = \"Tests\"".data,
   "golden_required = true".data]

set_option maxRecDepth 8000 in
theorem plugin_toml_split (name ns version : String)
    (hname : name.data.all notNL = true) (hns : ns.data.all notNL = true)
    (hv : version.data.all notNL = true) :
    splitLines (create_plugin_toml name ns version).data =
      pluginTomlLines name ns version ++ [[]] := by
  have hcond : ∀ l ∈ pluginTomlLines name ns version, l.all notNL = true := by
    intro l hm
    fin_cases hm
    all_goals first
      | decide
      | (simp only [List.all_append, hname, hns, hv, Bool.and_true, Bool.true_and]; decide)
  have hl : (create_plugin_toml name ns version).data = joinNL (pluginTomlLines name ns version) := by
    simp only [create_plugin_toml, String.data_append, joinNL, pluginTomlLines]
    simp [List.append_assoc]
  rw [hl, splitLines_joinNL _ hcond]

/-- The lines of the rendered runtime configuration (a constant). -/
def runtimeJsonLines : List (List Char) :=
  ["\x7b".data,
   "    \"schema\": \"atlas.config.v1\",".data,
   "    \"tickRate\": 30,".data,
   "    \"maxPlayers\": 20,".data,
   "    \"networkMode\": \"client_server\",".data,
   "    \"deterministic\": true,".data,
   "    \"serverRules\": \x7b\x7d".data,
   "\x7d".data]

set_option maxRecDepth 4000 in
theorem runtime_json_split :
    splitLines create_runtime_json.data = runtimeJsonLines ++ [[]] := by
  decide

/-! ## JSON escaping lemmas and the manifest decomposition -/

/-- Characters `json.dumps` renders verbatim inside a string literal:
printable ASCII other than quote and backslash. -/
def jsonPlain (c : Char) : Bool :=
  (32 ≤ c.toNat && c.toNat ≤ 126) && c.toNat ≠ 34 && c.toNat ≠ 92

theorem escChar_plain (c : Char) (h : jsonPlain c = true) : escChar c = [c] := by
  simp only [jsonPlain, Bool.and_eq_true, decide_eq_true_eq, ne_eq,
    decide_not, Bool.not_eq_true', decide_eq_false_iff_not] at h
  unfold escChar
  split_ifs <;> first | rfl | omega

theorem flatMap_escChar_plain (l : List Char) (h : l.all jsonPlain = true) :
    l.flatMap escChar = l := by
  induction l with
  | nil => rfl
  | cons c l ih =>
    simp only [List.all_cons, Bool.and_eq_true] at h
    simp only [List.flatMap_cons, escChar_plain c h.1, ih h.2, List.singleton_append]

theorem jsonEscape_plain (s : String) (h : s.data.all jsonPlain = true) :
    jsonEscape s = s := by
  apply String.ext
  show s.data.flatMap escChar = s.data
  exact flatMap_escChar_plain s.data h

theorem jsonEscape_append (a b : String) :
    jsonEscape (a ++ b) = jsonEscape a ++ jsonEscape b := by
  apply String.ext
  show (a.data ++ b.data).flatMap escChar = a.data.flatMap escChar ++ b.data.flatMap escChar
  simp [List.flatMap_append]

theorem ident_jsonPlain (c : Char) (h : isIdentChar c = true) : jsonPlain c = true := by
  simp only [isIdentChar, Bool.or_eq_true, Bool.and_eq_true, decide_eq_true_eq,
    beq_iff_eq, jsonPlain, ne_eq, decide_not, Bool.not_eq_true',
    decide_eq_false_iff_not] at h ⊢
  omega

theorem jsonPlain_notNL (c : Char) (h : jsonPlain c = true) : notNL c = true := by
  simp only [jsonPlain, Bool.and_eq_true, decide_eq_true_eq, ne_eq, decide_not,
    Bool.not_eq_true', decide_eq_false_iff_not, notNL, decide_eq_true_eq] at h ⊢
  omega

theorem jsonPlain_notQuote (c : Char) (h : jsonPlain c = true) : notQuote c = true := by
  simp only [jsonPlain, Bool.and_eq_true, decide_eq_true_eq, ne_eq, decide_not,
    Bool.not_eq_true', decide_eq_false_iff_not, notQuote, decide_eq_true_eq] at h ⊢
  omega

theorem pyUpperChar_ident (c : Char) (h : isIdentChar c = true) :
    isIdentChar (pyUpperChar c) = true := by
  unfold pyUpperChar
  split
  · next hc =>
    simp only [Bool.and_eq_true, decide_eq_true_eq] at hc
    obtain ⟨ha, hb⟩ := hc
    interval_cases hcv : c.toNat
    all_goals decide
  · exact h

theorem pyUpper_all_ident (s : String) (h : s.data.all isIdentChar = true) :
    (pyUpper s).data.all isIdentChar = true := by
  show (s.data.map pyUpperChar).all isIdentChar = true
  rw [List.all_map]
  refine all_mono ?_ s.data h
  intro c hc
  exact pyUpperChar_ident c hc

/-- The lines of the rendered project manifest, for escape-free inputs. -/
def manifestLines (name version : String) : List (List Char) :=
  ["\x7b".data,
   "    \"schema\": \"atlas.project.v1\",".data,
   "    \"name\": \"".data ++ (pyUpper name).data ++ "\",".data,
   "    \"version\": \"".data ++ version.data ++ "\",".data,
   "    \"description\": \"".data ++ name.data ++ " \\u2014 built on Atlas Engine\",".data,
   "    \"modules\": \x7b".data,
   "        \"worldGraph\": \"worlds/main.worldgraph\",".data,
   "        \"tileGraphs\": \"worlds/\",".data,
   "        \"strategyGraphs\": \"strategy/\",".data,
   "        \"conversationGraphs\": \"conversations/\",".data,
   "        \"behaviorGraphs\": \"ai/\",".data,
   "        \"ai\": true,".data,
   "        \"content\": \"data/\"".data,
   "    \x7d,".data,
   "    \"runtime\": \x7b".data,
   "        \"entryWorld\": \"worlds/main.worldgraph\",".data,
   "        \"tickRate\": 30,".data,
   "        \"maxPlayers\": 20".data,
   "    \x7d,".data,
   "    \"assets\": \x7b".data,
   "        \"root\": \"assets\"".data,
   "    \x7d,".data,
   "    \"config\": \"config/runtime.json\"".data,
   "\x7d".data]

set_option maxRecDepth 8000 in
theorem manifest_split (name ns version : String)
    (hname : name.data.all isIdentChar = true)
    (hv : version.data.all jsonPlain = true) :
    splitLines (create_project_file name ns version).data =
      manifestLines name version ++ [[]] := by
  have hnU : (pyUpper name).data.all isIdentChar = true := pyUpper_all_ident _ hname
  have hnameNL : name.data.all notNL = true := all_ident_notNL _ hname
  have hnUNL : (pyUpper name).data.all notNL = true := all_ident_notNL _ hnU
  have hvNL : version.data.all notNL = true := all_mono jsonPlain_notNL _ hv
  have e1 : jsonStr (pyUpper name) = "\"" ++ pyUpper name ++ "\"" := by
    unfold jsonStr
    rw [jsonEscape_plain _ (all_mono ident_jsonPlain _ hnU)]
  have e2 : jsonStr version = "\"" ++ version ++ "\"" := by
    unfold jsonStr
    rw [jsonEscape_plain _ hv]
  have e3 : jsonStr (name ++ " — built on Atlas Engine") =
      "\"" ++ name ++ " \\u2014 built on Atlas Engine\"" := by
    unfold jsonStr
    rw [jsonEscape_append, jsonEscape_plain _ (all_mono ident_jsonPlain _ hname),
      show jsonEscape " — built on Atlas Engine" = " \\u2014 built on Atlas Engine" from by decide]
    apply String.ext
    simp [String.data_append, List.append_assoc]
  have hcond : ∀ l ∈ manifestLines name version, l.all notNL = true := by
    intro l hm
    fin_cases hm
    all_goals first
      | decide
      | (simp only [List.all_append, hnameNL, hnUNL, hvNL, Bool.and_true, Bool.true_and]; decide)
  have hl : (create_project_file name ns version).data = joinNL (manifestLines name version) := by
    simp only [create_project_file]
    rw [e1, e2, e3]
    simp only [String.data_append, joinNL, manifestLines]
    simp [List.append_assoc]
  rw [hl, splitLines_joinNL _ hcond]

/-! ## Token-extraction lemmas

Each lemma evaluates one extractor on one rendered artifact, for inputs whose
characters come from the identifier classes (guaranteed by the spec's
validation rules). -/

theorem ident_isQualChar (c : Char) (h : isIdentChar c = true) : isQualChar c = true := by
  simp [isQualChar, h]

theorem namespaceToken_header (name ns : String)
    (hname : name.data.all isIdentChar = true) (hns : ns.data.all isIdentChar = true) :
    namespaceToken (create_module_header name ns) = some ns := by
  unfold namespaceToken extractTok
  rw [header_split name ns (all_ident_notNL _ hname) (all_ident_notNL _ hns)]
  unfold headerLines
  rw [List.cons_append, findSome?_cons_none _ _ _ (by simp [lineToken, List.isPrefixOf])]
  rw [List.cons_append, findSome?_cons_none _ _ _ (by simp [lineToken, List.isPrefixOf])]
  rw [List.cons_append, findSome?_cons_none _ _ _ (by simp [lineToken, List.isPrefixOf])]
  rw [List.cons_append, findSome?_cons_some _ _ _ ns.data ?hit]
  case hit =>
    unfold lineToken
    rw [if_pos (by simp [List.isPrefixOf])]
    show some (List.takeWhile isIdentChar (ns.data ++ " \x7b".data)) = some ns.data
    rw [takeWhile_append_stop _ _ _ hns (by decide)]
  rfl

theorem namespaceToken_source (name ns : String)
    (hname : name.data.all isIdentChar = true) (hns : ns.data.all isIdentChar = true) :
    namespaceToken (create_module_source name ns) = some ns := by
  unfold namespaceToken extractTok
  rw [source_split name ns (all_ident_notNL _ hname) (all_ident_notNL _ hns)]
  unfold sourceLines
  rw [List.cons_append, findSome?_cons_none _ _ _ (by simp [lineToken, List.isPrefixOf])]
  rw [List.cons_append, findSome?_cons_none _ _ _ (by simp [lineToken, List.isPrefixOf])]
  rw [List.cons_append, findSome?_cons_some _ _ _ ns.data ?hit]
  case hit =>
    unfold lineToken
    rw [if_pos (by simp [List.isPrefixOf])]
    show some (List.takeWhile isIdentChar (ns.data ++ " \x7b".data)) = some ns.data
    rw [takeWhile_append_stop _ _ _ hns (by decide)]
  rfl

theorem pluginIdToken_toml (name ns version : String)
    (hname : name.data.all isIdentChar = true) (hns : ns.data.all isIdentChar = true)
    (hvn : version.data.all notNL = true) :
    pluginIdToken (create_plugin_toml name ns version) = some ns := by
  unfold pluginIdToken extractTok
  rw [plugin_toml_split name ns version (all_ident_notNL _ hname) (all_ident_notNL _ hns) hvn]
  unfold pluginTomlLines
  rw [List.cons_append, findSome?_cons_none _ _ _ (by simp [lineToken, List.isPrefixOf])]
  rw [List.cons_append, findSome?_cons_some _ _ _ ns.data ?hit]
  case hit =>
    unfold lineToken
    rw [if_pos (by simp [List.isPrefixOf])]
    show some (List.takeWhile notQuote (ns.data ++ "\"".data)) = some ns.data
    rw [takeWhile_append_stop _ _ _ (all_ident_notQuote _ hns) (by decide)]
  rfl

theorem classToken_header (name ns : String)
    (hname : name.data.all isIdentChar = true) (hns : ns.data.all isIdentChar = true) :
    classToken (create_module_header name ns) = some (name ++ "Module") := by
  unfold classToken extractTok
  rw [header_split name ns (all_ident_notNL _ hname) (all_ident_notNL _ hns)]
  unfold headerLines
  rw [List.cons_append, findSome?_cons_none _ _ _ (by simp [lineToken, List.isPrefixOf])]
  rw [List.cons_append, findSome?_cons_none _ _ _ (by simp [lineToken, List.isPrefixOf])]
  rw [List.cons_append, findSome?_cons_none _ _ _ (by simp [lineToken, List.isPrefixOf])]
  rw [List.cons_append, findSome?_cons_none _ _ _ (by simp [lineToken, List.isPrefixOf])]
  rw [List.cons_append, findSome?_cons_none _ _ _ (by simp [lineToken, List.isPrefixOf])]
  rw [List.cons_append, findSome?_cons_some _ _ _ (name.data ++ "Module".data) ?hit]
  case hit =>
    unfold lineToken
    rw [if_pos (by simp [List.isPrefixOf])]
    show some (List.takeWhile isIdentChar
      (name.data ++ "Module : public atlas::module::IGameModule \x7b".data)) =
      some (name.data ++ "Module".data)
    rw [show ("Module : public atlas::module::IGameModule \x7b".data : List Char) =
      "Module".data ++ " : public atlas::module::IGameModule \x7b".data from by decide]
    rw [← List.append_assoc]
    rw [takeWhile_append_stop _ _ _
      (by simp only [List.all_append, hname, Bool.true_and]; decide) (by decide)]
  rfl

theorem addLibraryTarget_cmake (name : String) (hname : name.data.all isIdentChar = true) :
    addLibraryTarget (create_module_cmakelists name) = some (name ++ "Module") := by
  unfold addLibraryTarget extractTok
  rw [module_cmake_split name (all_ident_notNL _ hname)]
  unfold moduleCmakeLines
  rw [List.cons_append, findSome?_cons_some _ _ _ (name.data ++ "Module".data) ?hit]
  case hit =>
    unfold lineToken
    rw [if_pos (by simp [List.isPrefixOf])]
    show some (List.takeWhile isIdentChar (name.data ++ "Module SHARED".data)) =
      some (name.data ++ "Module".data)
    rw [show ("Module SHARED".data : List Char) = "Module".data ++ " SHARED".data from by decide]
    rw [← List.append_assoc]
    rw [takeWhile_append_stop _ _ _
      (by simp only [List.all_append, hname, Bool.true_and]; decide) (by decide)]
  rfl

theorem factoryClassToken_source (name ns : String)
    (hname : name.data.all isIdentChar = true) (hns : ns.data.all isIdentChar = true) :
    factoryClassToken (create_module_source name ns) = some (ns ++ "::" ++ name ++ "Module") := by
  have hnsQ : ns.data.all isQualChar = true := all_mono ident_isQualChar _ hns
  have hnameQ : name.data.all isQualChar = true := all_mono ident_isQualChar _ hname
  unfold factoryClassToken extractTok
  rw [source_split name ns (all_ident_notNL _ hname) (all_ident_notNL _ hns)]
  unfold sourceLines
  rw [List.cons_append, findSome?_cons_none _ _ _ (by simp [lineToken, List.isPrefixOf])]
  rw [List.cons_append, findSome?_cons_none _ _ _ (by simp [lineToken, List.isPrefixOf])]
  rw [List.cons_append, findSome?_cons_none _ _ _ (by simp [lineToken, List.isPrefixOf])]
  rw [List.cons_append, findSome?_cons_none _ _ _ (by simp [lineToken, List.isPrefixOf])]
  rw [List.cons_append, findSome?_cons_none _ _ _ (by simp [lineToken, List.isPrefixOf])]
  rw [List.cons_append, findSome?_cons_none _ _ _ (by simp [lineToken, List.isPrefixOf])]
  rw [List.cons_append, findSome?_cons_none _ _ _ (by simp [lineToken, List.isPrefixOf])]
  rw [List.cons_append, findSome?_cons_none _ _ _ (by simp [lineToken, List.isPrefixOf])]
  rw [List.cons_append, findSome?_cons_none _ _ _ (by simp [lineToken, List.isPrefixOf])]
  rw [List.cons_append, findSome?_cons_none _ _ _ (by simp [lineToken, List.isPrefixOf])]
  rw [List.cons_append, findSome?_cons_none _ _ _ (by simp [lineToken, List.isPrefixOf])]
  rw [List.cons_append, findSome?_cons_none _ _ _ (by simp [lineToken, List.isPrefixOf])]
  rw [List.cons_append, findSome?_cons_none _ _ _ (by simp [lineToken, List.isPrefixOf])]
  rw [List.cons_append, findSome?_cons_none _ _ _ (by simp [lineToken, List.isPrefixOf])]
  rw [List.cons_append, findSome?_cons_none _ _ _ (by simp [lineToken, List.isPrefixOf])]
  rw [List.cons_append, findSome?_cons_none _ _ _ (by simp [lineToken, List.isPrefixOf])]
  rw [List.cons_append, findSome?_cons_none _ _ _ (by simp [lineToken, List.isPrefixOf])]
  rw [List.cons_append, findSome?_cons_none _ _ _ (by simp [lineToken, List.isPrefixOf])]
  rw [List.cons_append, findSome?_cons_none _ _ _ (by simp [lineToken, List.isPrefixOf])]
  rw [List.cons_append, findSome?_cons_none _ _ _ (by simp [lineToken, List.isPrefixOf])]
  rw [List.cons_append, findSome?_cons_none _ _ _ (by simp [lineToken, List.isPrefixOf])]
  rw [List.cons_append, findSome?_cons_none _ _ _ (by simp [lineToken, List.isPrefixOf])]
  rw [List.cons_append, findSome?_cons_none _ _ _ (by simp [lineToken, List.isPrefixOf])]
  rw [List.cons_append, findSome?_cons_none _ _ _ (by simp [lineToken, List.isPrefixOf])]
  rw [List.cons_append, findSome?_cons_none _ _ _ (by simp [lineToken, List.isPrefixOf])]
  rw [List.cons_append, findSome?_cons_none _ _ _ (by simp [lineToken, List.isPrefixOf])]
  rw [List.cons_append, findSome?_cons_none _ _ _ (by simp [lineToken, List.isPrefixOf])]
  rw [List.cons_append, findSome?_cons_none _ _ _ (by simp [lineToken, List.isPrefixOf])]
  rw [List.cons_append, findSome?_cons_none _ _ _ (by simp [lineToken, List.isPrefixOf])]
  rw [List.cons_append, findSome?_cons_none _ _ _ (by simp [lineToken, List.isPrefixOf])]
  rw [List.cons_append, findSome?_cons_none _ _ _ (by simp [lineToken, List.isPrefixOf])]
  rw [List.cons_append, findSome?_cons_none _ _ _ (by simp [lineToken, List.isPrefixOf])]
  rw [List.cons_append, findSome?_cons_none _ _ _ (by simp [lineToken, List.isPrefixOf])]
  rw [List.cons_append, findSome?_cons_none _ _ _ (by simp [lineToken, List.isPrefixOf])]
  rw [List.cons_append, findSome?_cons_none _ _ _ (by simp [lineToken, List.isPrefixOf])]
  rw [List.cons_append, findSome?_cons_none _ _ _ (by simp [lineToken, List.isPrefixOf])]
  rw [List.cons_append, findSome?_cons_none _ _ _ (by simp [lineToken, List.isPrefixOf])]
  rw [List.cons_append, findSome?_cons_none _ _ _ (by simp [lineToken, List.isPrefixOf])]
  rw [List.cons_append, findSome?_cons_none _ _ _ (by simp [lineToken, List.isPrefixOf])]
  rw [List.cons_append, findSome?_cons_none _ _ _ (by simp [lineToken, List.isPrefixOf])]
  rw [List.cons_append, findSome?_cons_none _ _ _ (by simp [lineToken, List.isPrefixOf])]
  rw [List.cons_append, findSome?_cons_some _ _ _
    (((ns.data ++ "::".data) ++ name.data) ++ "Module".data) ?hit]
  case hit =>
    unfold lineToken
    rw [if_pos (by simp [List.isPrefixOf])]
    show some (List.takeWhile isQualChar
      (((ns.data ++ "::".data) ++ name.data) ++ "Module();".data)) =
      some (((ns.data ++ "::".data) ++ name.data) ++ "Module".data)
    rw [show ("Module();".data : List Char) = "Module".data ++ "();".data from by decide]
    rw [← List.append_assoc]
    rw [takeWhile_append_stop _ _ _
      (by simp only [List.all_append, hnsQ, hnameQ, Bool.true_and, Bool.and_true]; decide)
      (by decide)]
  rfl

theorem pluginNameToken_toml (name ns version : String)
    (hname : name.data.all isIdentChar = true) (hns : ns.data.all isIdentChar = true)
    (hvn : version.data.all notNL = true) :
    pluginNameToken (create_plugin_toml name ns version) = some name := by
  unfold pluginNameToken extractTok
  rw [plugin_toml_split name ns version (all_ident_notNL _ hname) (all_ident_notNL _ hns) hvn]
  unfold pluginTomlLines
  rw [List.cons_append, findSome?_cons_none _ _ _ (by simp [lineToken, List.isPrefixOf])]
  rw [List.cons_append, findSome?_cons_none _ _ _ (by simp [lineToken, List.isPrefixOf])]
  rw [List.cons_append, findSome?_cons_some _ _ _ name.data ?hit]
  case hit =>
    unfold lineToken
    rw [if_pos (by simp [List.isPrefixOf])]
    show some (List.takeWhile notQuote (name.data ++ "\"".data)) = some name.data
    rw [takeWhile_append_stop _ _ _ (all_ident_notQuote _ hname) (by decide)]
  rfl

theorem pluginVersionToken_toml (name ns version : String)
    (hname : name.data.all isIdentChar = true) (hns : ns.data.all isIdentChar = true)
    (hvn : version.data.all notNL = true) (hvq : version.data.all notQuote = true) :
    pluginVersionToken (create_plugin_toml name ns version) = some version := by
  unfold pluginVersionToken extractTok
  rw [plugin_toml_split name ns version (all_ident_notNL _ hname) (all_ident_notNL _ hns) hvn]
  unfold pluginTomlLines
  rw [List.cons_append, findSome?_cons_none _ _ _ (by simp [lineToken, List.isPrefixOf])]
  rw [List.cons_append, findSome?_cons_none _ _ _ (by simp [lineToken, List.isPrefixOf])]
  rw [List.cons_append, findSome?_cons_none _ _ _ (by simp [lineToken, List.isPrefixOf])]
  rw [List.cons_append, findSome?_cons_some _ _ _ version.data ?hit]
  case hit =>
    unfold lineToken
    rw [if_pos (by simp [List.isPrefixOf])]
    show some (List.takeWhile notQuote (version.data ++ "\"".data)) = some version.data
    rw [takeWhile_append_stop _ _ _ hvq (by decide)]
  rfl

theorem pluginEntryPoint_toml (name ns version : String)
    (hname : name.data.all isIdentChar = true) (hns : ns.data.all isIdentChar = true)
    (hvn : version.data.all notNL = true) :
    pluginEntryPoint (create_plugin_toml name ns version) = some "Code/GameInit.cpp" := by
  unfold pluginEntryPoint extractTok
  rw [plugin_toml_split name ns version (all_ident_notNL _ hname) (all_ident_notNL _ hns) hvn]
  unfold pluginTomlLines
  rw [List.cons_append, findSome?_cons_none _ _ _ (by simp [lineToken, List.isPrefixOf])]
  rw [List.cons_append, findSome?_cons_none _ _ _ (by simp [lineToken, List.isPrefixOf])]
  rw [List.cons_append, findSome?_cons_none _ _ _ (by simp [lineToken, List.isPrefixOf])]
  rw [List.cons_append, findSome?_cons_none _ _ _ (by simp [lineToken, List.isPrefixOf])]
  rw [List.cons_append, findSome?_cons_none _ _ _ (by simp [lineToken, List.isPrefixOf])]
  rw [List.cons_append, findSome?_cons_none _ _ _ (by simp [lineToken, List.isPrefixOf])]
  rw [List.cons_append, findSome?_cons_none _ _ _ (by simp [lineToken, List.isPrefixOf])]
  rw [List.cons_append, findSome?_cons_none _ _ _ (by simp [lineToken, List.isPrefixOf])]
  rw [List.cons_append, findSome?_cons_none _ _ _ (by simp [lineToken, List.isPrefixOf])]
  rw [List.cons_append, findSome?_cons_none _ _ _ (by simp [lineToken, List.isPrefixOf])]
  rw [List.cons_append, findSome?_cons_none _ _ _ (by simp [lineToken, List.isPrefixOf])]
  rw [List.cons_append, findSome?_cons_none _ _ _ (by simp [lineToken, List.isPrefixOf])]
  rw [List.cons_append, findSome?_cons_none _ _ _ (by simp [lineToken, List.isPrefixOf])]
  rw [List.cons_append, findSome?_cons_none _ _ _ (by simp [lineToken, List.isPrefixOf])]
  rw [List.cons_append, findSome?_cons_none _ _ _ (by simp [lineToken, List.isPrefixOf])]
  rw [List.cons_append, findSome?_cons_none _ _ _ (by simp [lineToken, List.isPrefixOf])]
  rw [List.cons_append, findSome?_cons_none _ _ _ (by simp [lineToken, List.isPrefixOf])]
  rw [List.cons_append, findSome?_cons_none _ _ _ (by simp [lineToken, List.isPrefixOf])]
  rw [List.cons_append, findSome?_cons_none _ _ _ (by simp [lineToken, List.isPrefixOf])]
  rw [List.cons_append, findSome?_cons_none _ _ _ (by simp [lineToken, List.isPrefixOf])]
  rw [List.cons_append, findSome?_cons_none _ _ _ (by simp [lineToken, List.isPrefixOf])]
  rw [List.cons_append, findSome?_cons_none _ _ _ (by simp [lineToken, List.isPrefixOf])]
  rw [List.cons_append, findSome?_cons_none _ _ _ (by simp [lineToken, List.isPrefixOf])]
  rw [List.cons_append, findSome?_cons_none _ _ _ (by simp [lineToken, List.isPrefixOf])]
  rw [List.cons_append, findSome?_cons_none _ _ _ (by simp [lineToken, List.isPrefixOf])]
  rw [List.cons_append, findSome?_cons_none _ _ _ (by simp [lineToken, List.isPrefixOf])]
  rw [List.cons_append, findSome?_cons_none _ _ _ (by simp [lineToken, List.isPrefixOf])]
  rw [List.cons_append, findSome?_cons_none _ _ _ (by simp [lineToken, List.isPrefixOf])]
  rw [List.cons_append, findSome?_cons_none _ _ _ (by simp [lineToken, List.isPrefixOf])]
  rw [List.cons_append, findSome?_cons_none _ _ _ (by simp [lineToken, List.isPrefixOf])]
  rw [List.cons_append, findSome?_cons_some _ _ _ "Code/GameInit.cpp".data (by decide)]
  rfl

theorem manifestNameValue_eq (name ns version : String)
    (hname : name.data.all isIdentChar = true) (hv : version.data.all jsonPlain = true) :
    manifestNameValue (create_project_file name ns version) = some (pyUpper name) := by
  unfold manifestNameValue extractTok
  rw [manifest_split name ns version hname hv]
  unfold manifestLines
  rw [List.cons_append, findSome?_cons_none _ _ _ (by simp [lineToken, List.isPrefixOf])]
  rw [List.cons_append, findSome?_cons_none _ _ _ (by simp [lineToken, List.isPrefixOf])]
  rw [List.cons_append, findSome?_cons_some _ _ _ (pyUpper name).data ?hit]
  case hit =>
    unfold lineToken
    rw [if_pos (by simp [List.isPrefixOf])]
    show some (List.takeWhile notQuote ((pyUpper name).data ++ "\",".data)) =
      some (pyUpper name).data
    rw [takeWhile_append_stop _ _ _
      (all_ident_notQuote _ (pyUpper_all_ident _ hname)) (by decide)]
  rfl

theorem manifestVersionValue_eq (name ns version : String)
    (hname : name.data.all isIdentChar = true) (hv : version.data.all jsonPlain = true) :
    manifestVersionValue (create_project_file name ns version) = some version := by
  unfold manifestVersionValue extractTok
  rw [manifest_split name ns version hname hv]
  unfold manifestLines
  rw [List.cons_append, findSome?_cons_none _ _ _ (by simp [lineToken, List.isPrefixOf])]
  rw [List.cons_append, findSome?_cons_none _ _ _ (by simp [lineToken, List.isPrefixOf])]
  rw [List.cons_append, findSome?_cons_none _ _ _ (by simp [lineToken, List.isPrefixOf])]
  rw [List.cons_append, findSome?_cons_some _ _ _ version.data ?hit]
  case hit =>
    unfold lineToken
    rw [if_pos (by simp [List.isPrefixOf])]
    show some (List.takeWhile notQuote (version.data ++ "\",".data)) = some version.data
    rw [takeWhile_append_stop _ _ _ (all_mono jsonPlain_notQuote _ hv) (by decide)]
  rfl

theorem manifestDescriptionValue_eq (name ns version : String)
    (hname : name.data.all isIdentChar = true) (hv : version.data.all jsonPlain = true) :
    manifestDescriptionValue (create_project_file name ns version) =
      some (name ++ " \\u2014 built on Atlas Engine") := by
  unfold manifestDescriptionValue extractTok
  rw [manifest_split name ns version hname hv]
  unfold manifestLines
  rw [List.cons_append, findSome?_cons_none _ _ _ (by simp [lineToken, List.isPrefixOf])]
  rw [List.cons_append, findSome?_cons_none _ _ _ (by simp [lineToken, List.isPrefixOf])]
  rw [List.cons_append, findSome?_cons_none _ _ _ (by simp [lineToken, List.isPrefixOf])]
  rw [List.cons_append, findSome?_cons_none _ _ _ (by simp [lineToken, List.isPrefixOf])]
  rw [List.cons_append, findSome?_cons_some _ _ _
    (name.data ++ " \\u2014 built on Atlas Engine".data) ?hit]
  case hit =>
    unfold lineToken
    rw [if_pos (by simp [List.isPrefixOf])]
    show some (List.takeWhile notQuote
      (name.data ++ " \\u2014 built on Atlas Engine\",".data)) =
      some (name.data ++ " \\u2014 built on Atlas Engine".data)
    rw [show (" \\u2014 built on Atlas Engine\",".data : List Char) =
      " \\u2014 built on Atlas Engine".data ++ "\",".data from by decide]
    rw [← List.append_assoc]
    rw [takeWhile_append_stop _ _ _
      (by simp only [List.all_append, all_ident_notQuote _ hname, Bool.true_and]; decide)
      (by decide)]
  rfl

/-! ## Filesystem behaviour of `main` -/

/-- Writing a file never touches the directory set, and materializing the
plan folds `setFile` over the initial file map. -/
def writeAll (A : List (String × String)) (plan : List (String × String)) :
    List (String × String) :=
  plan.foldl (fun a e => setFile a e.1 e.2) A

theorem foldl_makedirs_files (L : List String) (fs : FileSystem) :
    (L.foldl FileSystem.makedirs fs).files = fs.files := by
  induction L generalizing fs with
  | nil => rfl
  | cons d L ih =>
    simp only [List.foldl_cons]
    rw [ih]
    unfold FileSystem.makedirs
    split <;> rfl

theorem foldl_writeFile_files (plan : List (String × String)) (fs : FileSystem) :
    (plan.foldl (fun a e => FileSystem.writeFile a e.1 e.2) fs).files =
      writeAll fs.files plan := by
  induction plan generalizing fs with
  | nil => rfl
  | cons e plan ih =>
    simp only [List.foldl_cons, writeAll]
    rw [ih]
    rfl

/-- On a fresh target, `main` succeeds and its final file map is the initial
one updated by every planned write, in plan order. -/
theorem atlas_init_main_success (name ns dir : String) (fs : FileSystem)
    (h : fs.existsPath (os_path_join dir name) = false) :
    (atlas_init_main name ns dir fs).exitCode = 0 ∧
    (atlas_init_main name ns dir fs).errLines = [] ∧
    (atlas_init_main name ns dir fs).fs.files =
      writeAll fs.files (planFiles (os_path_join dir name) name ns) := by
  unfold atlas_init_main
  simp only [h, Bool.false_eq_true, if_false]
  refine ⟨by trivial, by trivial, ?_⟩
  rw [foldl_writeFile_files, foldl_makedirs_files]

/-- Claim C2: if the target project root already exists at invocation time,
the tool exits with status 1, writes an error message naming the path to the
error stream, and leaves the filesystem — in particular every existing file
and its bytes — completely unchanged. -/
theorem C2_non_destructive_failure (name ns dir : String) (fs : FileSystem)
    (h : fs.existsPath (os_path_join dir name) = true) :
    atlas_init_main name ns dir fs =
      RunResult.mk 1 ["Error: Directory already exists: " ++ os_path_join dir name] fs := by
  unfold atlas_init_main
  simp only [h, if_true]

/-- Witness for C2 at a concrete filesystem that already has the project root
and one file beneath it. -/
theorem C2_non_destructive_failure_witness :
    atlas_init_main "Skyforge" "skyforge" "."
        (FileSystem.mk ["./Skyforge"] [("./Skyforge/old.txt", "precious bytes")]) =
      RunResult.mk 1 ["Error: Directory already exists: " ++ os_path_join "." "Skyforge"]
        (FileSystem.mk ["./Skyforge"] [("./Skyforge/old.txt", "precious bytes")]) :=
  C2_non_destructive_failure "Skyforge" "skyforge" "." _ (by decide)

/-- Claim C3 (code bug): the spec requires inputs failing the identifier
regexes to be rejected with `InvalidIdentifier` before any filesystem
mutation, but `main` performs no validation at all: with the invalid
namespace `"bad/ns"` (it contains a path separator) and a fresh target, the
run exits 0 and writes all seven planned files. -/
theorem C3_no_identifier_validation :
    validNs "bad/ns" = false ∧
    validName "MyGame" = true ∧
    (atlas_init_main "MyGame" "bad/ns" "." emptyFS).exitCode = 0 ∧
    (atlas_init_main "MyGame" "bad/ns" "." emptyFS).errLines = [] ∧
    ((atlas_init_main "MyGame" "bad/ns" "." emptyFS).fs.files.map Prod.fst).length = 7 ∧
    (atlas_init_main "MyGame" "bad/ns" "." emptyFS).fs.dirs.length = 5 := by
  refine ⟨by decide, by decide, rfl, rfl, rfl, rfl⟩

/-! ## File-map lookup lemmas (for the determinism claim) -/

def lookupFile : List (String × String) → String → Option String
  | [], _ => none
  | e :: rest, p => if e.1 = p then some e.2 else lookupFile rest p

theorem lookupFile_setFile (A : List (String × String)) (p c q : String) :
    lookupFile (setFile A p c) q = if p = q then some c else lookupFile A q := by
  induction A with
  | nil =>
    show lookupFile [(p, c)] q = _
    by_cases h : p = q <;> simp [lookupFile, h]
  | cons e rest ih =>
    by_cases h1 : e.1 = p
    · rw [show setFile (e :: rest) p c = (p, c) :: rest from by simp [setFile, h1]]
      by_cases h2 : p = q
      · simp [lookupFile, h2]
      · have h3 : ¬ e.1 = q := by rw [h1]; exact h2
        simp [lookupFile, h2, h3]
    · rw [show setFile (e :: rest) p c = e :: setFile rest p c from by simp [setFile, h1]]
      by_cases h2 : e.1 = q
      · have h3 : ¬ p = q := fun hpq => h1 (h2.trans hpq.symm)
        simp [lookupFile, h2, h3]
      · simp [lookupFile, h2, ih]

theorem lookupFile_writeAll (plan : List (String × String)) (A : List (String × String))
    (q : String) :
    lookupFile (writeAll A plan) q =
      match lookupFile plan.reverse q with
      | some v => some v
      | none => lookupFile A q := by
  induction plan generalizing A with
  | nil => simp [writeAll, lookupFile]
  | cons e plan ih =>
    have happ : ∀ (a b : List (String × String)),
        lookupFile (a ++ b) q =
          match lookupFile a q with
          | some v => some v
          | none => lookupFile b q := by
      intro a b
      induction a with
      | nil => simp [lookupFile]
      | cons x a iha =>
        show lookupFile (x :: (a ++ b)) q = _
        by_cases h1 : x.1 = q
        · simp [lookupFile, h1]
        · simp only [lookupFile, h1, if_false]
          rw [iha]
    show lookupFile (writeAll (setFile A e.1 e.2) plan) q = _
    rw [ih, show (e :: plan).reverse = plan.reverse ++ [e] from by simp, happ]
    rcases hpl : lookupFile plan.reverse q with _ | v
    · rw [lookupFile_setFile]
      by_cases h : e.1 = q <;> simp [lookupFile, h]
    · rfl

theorem lookupFile_of_mem (l : List (String × String)) (p c : String)
    (h : (p, c) ∈ l) : ∃ v, lookupFile l p = some v := by
  induction l with
  | nil => simp at h
  | cons e rest ih =>
    unfold lookupFile
    by_cases he : e.1 = p
    · exact ⟨e.2, by simp [he]⟩
    · simp only [he, if_false]
      rcases List.mem_cons.mp h with rfl | hmem
      · exact absurd rfl he
      · exact ih hmem

/-- Claim C5 (determinism / purity): the bytes materialized at every planned
path are a function of `(name, ns, dir)` alone.  Two invocations with the
same inputs, started from two arbitrary filesystems in which the project
root does not yet exist, leave the same content at every planned path. -/
theorem C5_deterministic_rendering (name ns dir : String) (fs1 fs2 : FileSystem)
    (h1 : fs1.existsPath (os_path_join dir name) = false)
    (h2 : fs2.existsPath (os_path_join dir name) = false) :
    ∀ p c, (p, c) ∈ planFiles (os_path_join dir name) name ns →
      ∃ v, lookupFile (atlas_init_main name ns dir fs1).fs.files p = some v ∧
           lookupFile (atlas_init_main name ns dir fs2).fs.files p = some v := by
  intro p c hmem
  rw [(atlas_init_main_success name ns dir fs1 h1).2.2,
    (atlas_init_main_success name ns dir fs2 h2).2.2]
  rw [lookupFile_writeAll, lookupFile_writeAll]
  obtain ⟨v, hv⟩ := lookupFile_of_mem _ p c
    (List.mem_reverse.mpr hmem)
  exact ⟨v, by rw [hv], by rw [hv]⟩

/-- Witness for C5: concrete inputs on two different fresh filesystems. -/
theorem C5_deterministic_rendering_witness :
    ∃ v, lookupFile (atlas_init_main "Skyforge" "skyforge" "." emptyFS).fs.files
        (os_path_join (os_path_join "." "Skyforge") "Plugin.toml") = some v ∧
      lookupFile (atlas_init_main "Skyforge" "skyforge" "."
          (FileSystem.mk ["./Other"] [("./Other/x.txt", "x")])).fs.files
        (os_path_join (os_path_join "." "Skyforge") "Plugin.toml") = some v :=
  C5_deterministic_rendering "Skyforge" "skyforge" "." emptyFS
    (FileSystem.mk ["./Other"] [("./Other/x.txt", "x")]) (by decide) (by decide)
    (os_path_join (os_path_join "." "Skyforge") "Plugin.toml")
    (create_plugin_toml "Skyforge" "skyforge" "0.1.0")
    (by unfold planFiles; exact List.mem_cons_of_mem _ (List.mem_cons_self _ _))

/-- Claim C9 (implicit): `create_runtime_json` takes no parameters, so the
`config/runtime.json` artifact planned for any two specs is the same
constant string. -/
theorem C9_runtime_json_constant (n1 ns1 p1 n2 ns2 p2 : String) :
    ((planFiles p1 n1 ns1).map Prod.snd).get? 6 = ((planFiles p2 n2 ns2).map Prod.snd).get? 6 ∧
    ((planFiles p1 n1 ns1).map Prod.snd).get? 6 = some create_runtime_json := by
  constructor <;> simp [planFiles]

/-- Claim C1: cross-file name consistency.  For every valid `(name, ns)` (and
any newline-free version string), the namespace token of the header's
namespace declaration, the namespace token of the source file's namespace
declaration, and the plugin descriptor's `id` value are all `ns`; and the
class-name token `{name}Module` declared in the header equals the library
target of the module build file, while the factory function instantiates
`{ns}::{name}Module`. -/
theorem C1_cross_file_name_consistency (name ns version : String)
    (hname : validName name = true) (hns : validNs ns = true)
    (hv : version.data.all notNL = true) :
    namespaceToken (create_module_header name ns) = some ns ∧
    namespaceToken (create_module_source name ns) = some ns ∧
    pluginIdToken (create_plugin_toml name ns version) = some ns ∧
    classToken (create_module_header name ns) = some (name ++ "Module") ∧
    addLibraryTarget (create_module_cmakelists name) = some (name ++ "Module") ∧
    factoryClassToken (create_module_source name ns) = some (ns ++ "::" ++ name ++ "Module") := by
  have hn := validName_all_ident _ hname
  have hs := validNs_all_ident _ hns
  exact ⟨namespaceToken_header _ _ hn hs, namespaceToken_source _ _ hn hs,
    pluginIdToken_toml _ _ _ hn hs hv, classToken_header _ _ hn hs,
    addLibraryTarget_cmake _ hn, factoryClassToken_source _ _ hn hs⟩

/-- Witness for C1 at the spec's end-to-end example inputs. -/
theorem C1_cross_file_name_consistency_witness :
    namespaceToken (create_module_header "Skyforge" "skyforge") = some "skyforge" ∧
    namespaceToken (create_module_source "Skyforge" "skyforge") = some "skyforge" ∧
    pluginIdToken (create_plugin_toml "Skyforge" "skyforge" "0.1.0") = some "skyforge" ∧
    classToken (create_module_header "Skyforge" "skyforge") = some ("Skyforge" ++ "Module") ∧
    addLibraryTarget (create_module_cmakelists "Skyforge") = some ("Skyforge" ++ "Module") ∧
    factoryClassToken (create_module_source "Skyforge" "skyforge") =
      some ("skyforge" ++ "::" ++ "Skyforge" ++ "Module") :=
  C1_cross_file_name_consistency "Skyforge" "skyforge" "0.1.0"
    (by decide) (by decide) (by decide)

set_option maxRecDepth 20000 in
/-- Counterexample for claim C4 as stated: the plugin descriptor's path
table does not include `{name}Module.cpp` as the entry point — the rendered
descriptor for `name = "Skyforge"` nowhere contains `SkyforgeModule.cpp`,
and its `entry_point` value is the fixed `Code/GameInit.cpp`. -/
theorem C4_entry_point_counterexample :
    occursIn "SkyforgeModule.cpp" (create_plugin_toml "Skyforge" "skyforge" "0.1.0") = false ∧
    pluginEntryPoint (create_plugin_toml "Skyforge" "skyforge" "0.1.0") =
      some "Code/GameInit.cpp" := by
  constructor <;> decide

/-- Claim C4 as amended: for every `(name, ns, version)`, the rendered
`Plugin.toml` has plugin id `ns`, plugin name `name`, the given version, the
fixed capability flags, and the fixed content/code path table whose entry
point is `Code/GameInit.cpp`. -/
theorem C4_plugin_descriptor_content (name ns version : String)
    (hname : validName name = true) (hns : validNs ns = true)
    (hvn : version.data.all notNL = true) (hvq : version.data.all notQuote = true) :
    pluginIdToken (create_plugin_toml name ns version) = some ns ∧
    pluginNameToken (create_plugin_toml name ns version) = some name ∧
    pluginVersionToken (create_plugin_toml name ns version) = some version ∧
    "uses_graphs = true".data ∈ splitLines (create_plugin_toml name ns version).data ∧
    "uses_schemas = true".data ∈ splitLines (create_plugin_toml name ns version).data ∧
    "uses_assetgraph = true".data ∈ splitLines (create_plugin_toml name ns version).data ∧
    "uses_networking = true".data ∈ splitLines (create_plugin_toml name ns version).data ∧
    "uses_ai_assist = false".data ∈ splitLines (create_plugin_toml name ns version).data ∧
    "entry_point = \"Code/GameInit.cpp\"".data ∈ splitLines (create_plugin_toml name ns version).data ∧
    "adapters_path = \"Code/Adapters\"".data ∈ splitLines (create_plugin_toml name ns version).data := by
  have hn := validName_all_ident _ hname
  have hs := validNs_all_ident _ hns
  have hsplit := plugin_toml_split name ns version (all_ident_notNL _ hn) (all_ident_notNL _ hs) hvn
  refine ⟨pluginIdToken_toml _ _ _ hn hs hvn, pluginNameToken_toml _ _ _ hn hs hvn,
    pluginVersionToken_toml _ _ _ hn hs hvn hvq, ?_, ?_, ?_, ?_, ?_, ?_, ?_⟩
  all_goals rw [hsplit]
  all_goals simp [pluginTomlLines]

/-- Witness for the amended C4 at concrete inputs. -/
theorem C4_plugin_descriptor_content_witness :
    pluginIdToken (create_plugin_toml "Skyforge" "skyforge" "0.1.0") = some "skyforge" ∧
    pluginNameToken (create_plugin_toml "Skyforge" "skyforge" "0.1.0") = some "Skyforge" ∧
    pluginVersionToken (create_plugin_toml "Skyforge" "skyforge" "0.1.0") = some "0.1.0" ∧
    "uses_graphs = true".data ∈ splitLines (create_plugin_toml "Skyforge" "skyforge" "0.1.0").data ∧
    "uses_schemas = true".data ∈ splitLines (create_plugin_toml "Skyforge" "skyforge" "0.1.0").data ∧
    "uses_assetgraph = true".data ∈ splitLines (create_plugin_toml "Skyforge" "skyforge" "0.1.0").data ∧
    "uses_networking = true".data ∈ splitLines (create_plugin_toml "Skyforge" "skyforge" "0.1.0").data ∧
    "uses_ai_assist = false".data ∈ splitLines (create_plugin_toml "Skyforge" "skyforge" "0.1.0").data ∧
    "entry_point = \"Code/GameInit.cpp\"".data ∈ splitLines (create_plugin_toml "Skyforge" "skyforge" "0.1.0").data ∧
    "adapters_path = \"Code/Adapters\"".data ∈ splitLines (create_plugin_toml "Skyforge" "skyforge" "0.1.0").data :=
  C4_plugin_descriptor_content "Skyforge" "skyforge" "0.1.0"
    (by decide) (by decide) (by decide) (by decide)

/-- Claim C10 (implicit): `main` calls both versioned renderers without a
version argument, so the planned manifest and plugin descriptor are rendered
at the default `"0.1.0"`, and the version recorded in both artifacts' bytes
is exactly `"0.1.0"`. -/
theorem C10_version_always_default (name ns dir : String)
    (hname : validName name = true) (hns : validNs ns = true) :
    ((planFiles (os_path_join dir name) name ns).map Prod.snd).get? 0 =
      some (create_project_file name ns "0.1.0") ∧
    ((planFiles (os_path_join dir name) name ns).map Prod.snd).get? 1 =
      some (create_plugin_toml name ns "0.1.0") ∧
    manifestVersionValue (create_project_file name ns "0.1.0") = some "0.1.0" ∧
    pluginVersionToken (create_plugin_toml name ns "0.1.0") = some "0.1.0" := by
  have hn := validName_all_ident _ hname
  have hs := validNs_all_ident _ hns
  exact ⟨by simp [planFiles], by simp [planFiles],
    manifestVersionValue_eq _ _ _ hn (by decide),
    pluginVersionToken_toml _ _ _ hn hs (by decide) (by decide)⟩

/-- Witness for C10 at concrete inputs. -/
theorem C10_version_always_default_witness :
    ((planFiles (os_path_join "." "Skyforge") "Skyforge" "skyforge").map Prod.snd).get? 0 =
      some (create_project_file "Skyforge" "skyforge" "0.1.0") ∧
    ((planFiles (os_path_join "." "Skyforge") "Skyforge" "skyforge").map Prod.snd).get? 1 =
      some (create_plugin_toml "Skyforge" "skyforge" "0.1.0") ∧
    manifestVersionValue (create_project_file "Skyforge" "skyforge" "0.1.0") = some "0.1.0" ∧
    pluginVersionToken (create_plugin_toml "Skyforge" "skyforge" "0.1.0") = some "0.1.0" :=
  C10_version_always_default "Skyforge" "skyforge" "." (by decide) (by decide)

/-- Claim C6: manifest and runtime-config content.  The manifest carries the
fixed top-level keys with the display name uppercased, a description
interpolating `name`, and the fixed runtime block with tick rate 30 and max
players 20; the runtime config carries its schema tag, tickRate 30,
maxPlayers 20, networkMode `client_server`, deterministic `true`, and an
empty `serverRules` table. -/
theorem C6_manifest_and_runtime_content (name ns version : String)
    (hname : validName name = true) (hv : version.data.all jsonPlain = true) :
    manifestNameValue (create_project_file name ns version) = some (pyUpper name) ∧
    manifestVersionValue (create_project_file name ns version) = some version ∧
    manifestDescriptionValue (create_project_file name ns version) =
      some (name ++ " \\u2014 built on Atlas Engine") ∧
    "    \"schema\": \"atlas.project.v1\",".data ∈
      splitLines (create_project_file name ns version).data ∧
    "    \"modules\": \x7b".data ∈ splitLines (create_project_file name ns version).data ∧
    "    \"assets\": \x7b".data ∈ splitLines (create_project_file name ns version).data ∧
    "    \"config\": \"config/runtime.json\"".data ∈
      splitLines (create_project_file name ns version).data ∧
    ["    \"runtime\": \x7b".data,
     "        \"entryWorld\": \"worlds/main.worldgraph\",".data,
     "        \"tickRate\": 30,".data,
     "        \"maxPlayers\": 20".data,
     "    \x7d,".data] <:+: splitLines (create_project_file name ns version).data ∧
    "    \"schema\": \"atlas.config.v1\",".data ∈ splitLines create_runtime_json.data ∧
    "    \"tickRate\": 30,".data ∈ splitLines create_runtime_json.data ∧
    "    \"maxPlayers\": 20,".data ∈ splitLines create_runtime_json.data ∧
    "    \"networkMode\": \"client_server\",".data ∈ splitLines create_runtime_json.data ∧
    "    \"deterministic\": true,".data ∈ splitLines create_runtime_json.data ∧
    "    \"serverRules\": \x7b\x7d".data ∈ splitLines create_runtime_json.data := by
  have hn := validName_all_ident _ hname
  have hsplit := manifest_split name ns version hn hv
  refine ⟨manifestNameValue_eq _ _ _ hn hv, manifestVersionValue_eq _ _ _ hn hv,
    manifestDescriptionValue_eq _ _ _ hn hv, ?_, ?_, ?_, ?_, ?_,
    by decide, by decide, by decide, by decide, by decide, by decide⟩
  · rw [hsplit]; simp [manifestLines]
  · rw [hsplit]; simp [manifestLines]
  · rw [hsplit]; simp [manifestLines]
  · rw [hsplit]; simp [manifestLines]
  · rw [hsplit]
    refine ⟨["\x7b".data,
      "    \"schema\": \"atlas.project.v1\",".data,
      "    \"name\": \"".data ++ (pyUpper name).data ++ "\",".data,
      "    \"version\": \"".data ++ version.data ++ "\",".data,
      "    \"description\": \"".data ++ name.data ++ " \\u2014 built on Atlas Engine\",".data,
      "    \"modules\": \x7b".data,
      "        \"worldGraph\": \"worlds/main.worldgraph\",".data,
      "        \"tileGraphs\": \"worlds/\",".data,
      "        \"strategyGraphs\": \"strategy/\",".data,
      "        \"conversationGraphs\": \"conversations/\",".data,
      "        \"behaviorGraphs\": \"ai/\",".data,
      "        \"ai\": true,".data,
      "        \"content\": \"data/\"".data,
      "    \x7d,".data],
      ["    \"assets\": \x7b".data,
       "        \"root\": \"assets\"".data,
       "    \x7d,".data,
       "    \"config\": \"config/runtime.json\"".data,
       "\x7d".data, []], ?_⟩
    rfl

/-- Witness for C6 at concrete inputs. -/
theorem C6_manifest_and_runtime_content_witness :
    manifestNameValue (create_project_file "Skyforge" "skyforge" "0.1.0") = some (pyUpper "Skyforge") ∧
    manifestVersionValue (create_project_file "Skyforge" "skyforge" "0.1.0") = some "0.1.0" ∧
    manifestDescriptionValue (create_project_file "Skyforge" "skyforge" "0.1.0") =
      some ("Skyforge" ++ " \\u2014 built on Atlas Engine") ∧
    "    \"schema\": \"atlas.project.v1\",".data ∈
      splitLines (create_project_file "Skyforge" "skyforge" "0.1.0").data ∧
    "    \"modules\": \x7b".data ∈ splitLines (create_project_file "Skyforge" "skyforge" "0.1.0").data ∧
    "    \"assets\": \x7b".data ∈ splitLines (create_project_file "Skyforge" "skyforge" "0.1.0").data ∧
    "    \"config\": \"config/runtime.json\"".data ∈
      splitLines (create_project_file "Skyforge" "skyforge" "0.1.0").data ∧
    ["    \"runtime\": \x7b".data,
     "        \"entryWorld\": \"worlds/main.worldgraph\",".data,
     "        \"tickRate\": 30,".data,
     "        \"maxPlayers\": 20".data,
     "    \x7d,".data] <:+: splitLines (create_project_file "Skyforge" "skyforge" "0.1.0").data ∧
    "    \"schema\": \"atlas.config.v1\",".data ∈ splitLines create_runtime_json.data ∧
    "    \"tickRate\": 30,".data ∈ splitLines create_runtime_json.data ∧
    "    \"maxPlayers\": 20,".data ∈ splitLines create_runtime_json.data ∧
    "    \"networkMode\": \"client_server\",".data ∈ splitLines create_runtime_json.data ∧
    "    \"deterministic\": true,".data ∈ splitLines create_runtime_json.data ∧
    "    \"serverRules\": \x7b\x7d".data ∈ splitLines create_runtime_json.data :=
  C6_manifest_and_runtime_content "Skyforge" "skyforge" "0.1.0" (by decide) (by decide)

/-- Claim C8: module source semantics.  The source file defines, out of
line, every one of the seven methods the header declares; the `OnStart` body
sets the started flag, the `OnTick` body increments the tick counter, the
`OnShutdown` body resets both; and the `extern "C"` factory instantiates
`{ns}::{name}Module`. -/
theorem C8_module_source_semantics (name ns : String)
    (hname : validName name = true) (hns : validNs ns = true) :
    (∀ m ∈ (["RegisterTypes", "ConfigureReplication", "ConfigureServerRules",
              "OnStart", "OnShutdown"] : List String),
      ("    void " ++ m ++ "(atlas::module::GameModuleContext& ctx) override;").data ∈
        splitLines (create_module_header name ns).data ∧
      ("void ".data ++ name.data ++
          ("Module::" ++ m ++ "(atlas::module::GameModuleContext& ctx) \x7b").data) ∈
        splitLines (create_module_source name ns).data) ∧
    "    atlas::module::GameModuleDesc Describe() const override;".data ∈
      splitLines (create_module_header name ns).data ∧
    ("atlas::module::GameModuleDesc ".data ++ name.data ++ "Module::Describe() const \x7b".data) ∈
      splitLines (create_module_source name ns).data ∧
    "    void OnTick(atlas::module::GameModuleContext& ctx, float dt) override;".data ∈
      splitLines (create_module_header name ns).data ∧
    ("void ".data ++ name.data ++ "Module::OnTick(atlas::module::GameModuleContext& ctx, float dt) \x7b".data) ∈
      splitLines (create_module_source name ns).data ∧
    ["void ".data ++ name.data ++ "Module::OnStart(atlas::module::GameModuleContext& ctx) \x7b".data,
     "    (void)ctx;".data,
     "    m_started = true;".data,
     "\x7d".data] <:+: splitLines (create_module_source name ns).data ∧
    ["void ".data ++ name.data ++ "Module::OnTick(atlas::module::GameModuleContext& ctx, float dt) \x7b".data,
     "    (void)ctx;".data,
     "    (void)dt;".data,
     "    ++m_tickCount;".data,
     "\x7d".data] <:+: splitLines (create_module_source name ns).data ∧
    ["void ".data ++ name.data ++ "Module::OnShutdown(atlas::module::GameModuleContext& ctx) \x7b".data,
     "    (void)ctx;".data,
     "    m_started = false;".data,
     "    m_tickCount = 0;".data,
     "\x7d".data] <:+: splitLines (create_module_source name ns).data ∧
    "extern \"C\" atlas::module::IGameModule* CreateGameModule() \x7b".data ∈
      splitLines (create_module_source name ns).data ∧
    factoryClassToken (create_module_source name ns) = some (ns ++ "::" ++ name ++ "Module") := by
  have hn := validName_all_ident _ hname
  have hs := validNs_all_ident _ hns
  have hsrc := source_split name ns (all_ident_notNL _ hn) (all_ident_notNL _ hs)
  have hhdr := header_split name ns (all_ident_notNL _ hn) (all_ident_notNL _ hs)
  refine ⟨?_, ?_, ?_, ?_, ?_, ?_, ?_, ?_, ?_, factoryClassToken_source _ _ hn hs⟩
  · intro m hm
    fin_cases hm <;>
      exact ⟨by rw [hhdr]; simp [headerLines], by rw [hsrc]; simp [sourceLines]⟩
  · rw [hhdr]; simp [headerLines]
  · rw [hsrc]; simp [sourceLines]
  · rw [hhdr]; simp [headerLines]
  · rw [hsrc]; simp [sourceLines]
  · rw [hsrc]
    unfold sourceLines
    refine ⟨?pre1, ?suf1, ?_⟩
    case pre1 => exact ["#include \"".data ++ name.data ++ "Module.h\"".data, [],
      "namespace ".data ++ ns.data ++ " \x7b".data, [],
      "atlas::module::GameModuleDesc ".data ++ name.data ++ "Module::Describe() const \x7b".data,
      "    return \x7b\"".data ++ name.data ++ "\", 1\x7d;".data, "\x7d".data, [],
      "void ".data ++ name.data ++ "Module::RegisterTypes(atlas::module::GameModuleContext& ctx) \x7b".data,
      "    (void)ctx;".data, "\x7d".data, [],
      "void ".data ++ name.data ++ "Module::ConfigureReplication(atlas::module::GameModuleContext& ctx) \x7b".data,
      "    (void)ctx;".data, "\x7d".data, [],
      "void ".data ++ name.data ++ "Module::ConfigureServerRules(atlas::module::GameModuleContext& ctx) \x7b".data,
      "    (void)ctx;".data, "\x7d".data, []]
    case suf1 => exact [[],
      "void ".data ++ name.data ++ "Module::OnTick(atlas::module::GameModuleContext& ctx, float dt) \x7b".data,
      "    (void)ctx;".data, "    (void)dt;".data, "    ++m_tickCount;".data, "\x7d".data, [],
      "void ".data ++ name.data ++ "Module::OnShutdown(atlas::module::GameModuleContext& ctx) \x7b".data,
      "    (void)ctx;".data, "    m_started = false;".data, "    m_tickCount = 0;".data, "\x7d".data, [],
      "\x7d // namespace ".data ++ ns.data, [],
      "// Factory function for dynamic loading".data,
      "extern \"C\" atlas::module::IGameModule* CreateGameModule() \x7b".data,
      "    return new ".data ++ ns.data ++ "::".data ++ name.data ++ "Module();".data,
      "\x7d".data, []]
    rfl
  · rw [hsrc]
    unfold sourceLines
    refine ⟨?pre2, ?suf2, ?_⟩
    case pre2 => exact ["#include \"".data ++ name.data ++ "Module.h\"".data, [],
      "namespace ".data ++ ns.data ++ " \x7b".data, [],
      "atlas::module::GameModuleDesc ".data ++ name.data ++ "Module::Describe() const \x7b".data,
      "    return \x7b\"".data ++ name.data ++ "\", 1\x7d;".data, "\x7d".data, [],
      "void ".data ++ name.data ++ "Module::RegisterTypes(atlas::module::GameModuleContext& ctx) \x7b".data,
      "    (void)ctx;".data, "\x7d".data, [],
      "void ".data ++ name.data ++ "Module::ConfigureReplication(atlas::module::GameModuleContext& ctx) \x7b".data,
      "    (void)ctx;".data, "\x7d".data, [],
      "void ".data ++ name.data ++ "Module::ConfigureServerRules(atlas::module::GameModuleContext& ctx) \x7b".data,
      "    (void)ctx;".data, "\x7d".data, [],
      "void ".data ++ name.data ++ "Module::OnStart(atlas::module::GameModuleContext& ctx) \x7b".data,
      "    (void)ctx;".data, "    m_started = true;".data, "\x7d".data, []]
    case suf2 => exact [[],
      "void ".data ++ name.data ++ "Module::OnShutdown(atlas::module::GameModuleContext& ctx) \x7b".data,
      "    (void)ctx;".data, "    m_started = false;".data, "    m_tickCount = 0;".data, "\x7d".data, [],
      "\x7d // namespace ".data ++ ns.data, [],
      "// Factory function for dynamic loading".data,
      "extern \"C\" atlas::module::IGameModule* CreateGameModule() \x7b".data,
      "    return new ".data ++ ns.data ++ "::".data ++ name.data ++ "Module();".data,
      "\x7d".data, []]
    rfl
  · rw [hsrc]
    unfold sourceLines
    refine ⟨?pre3, ?suf3, ?_⟩
    case pre3 => exact ["#include \"".data ++ name.data ++ "Module.h\"".data, [],
      "namespace ".data ++ ns.data ++ " \x7b".data, [],
      "atlas::module::GameModuleDesc ".data ++ name.data ++ "Module::Describe() const \x7b".data,
      "    return \x7b\"".data ++ name.data ++ "\", 1\x7d;".data, "\x7d".data, [],
      "void ".data ++ name.data ++ "Module::RegisterTypes(atlas::module::GameModuleContext& ctx) \x7b".data,
      "    (void)ctx;".data, "\x7d".data, [],
      "void ".data ++ name.data ++ "Module::ConfigureReplication(atlas::module::GameModuleContext& ctx) \x7b".data,
      "    (void)ctx;".data, "\x7d".data, [],
      "void ".data ++ name.data ++ "Module::ConfigureServerRules(atlas::module::GameModuleContext& ctx) \x7b".data,
      "    (void)ctx;".data, "\x7d".data, [],
      "void ".data ++ name.data ++ "Module::OnStart(atlas::module::GameModuleContext& ctx) \x7b".data,
      "    (void)ctx;".data, "    m_started = true;".data, "\x7d".data, [],
      "void ".data ++ name.data ++ "Module::OnTick(atlas::module::GameModuleContext& ctx, float dt) \x7b".data,
      "    (void)ctx;".data, "    (void)dt;".data, "    ++m_tickCount;".data, "\x7d".data, []]
    case suf3 => exact [[],
      "\x7d // namespace ".data ++ ns.data, [],
      "// Factory function for dynamic loading".data,
      "extern \"C\" atlas::module::IGameModule* CreateGameModule() \x7b".data,
      "    return new ".data ++ ns.data ++ "::".data ++ name.data ++ "Module();".data,
      "\x7d".data, []]
    rfl
  · rw [hsrc]; simp [sourceLines]

/-- Witness for C8 at concrete inputs (the factory-token conjunct, which is
the part dependent on both identifiers). -/
theorem C8_module_source_semantics_witness :
    ("void ".data ++ "Skyforge".data ++
        ("Module::" ++ "OnStart" ++ "(atlas::module::GameModuleContext& ctx) \x7b").data) ∈
      splitLines (create_module_source "Skyforge" "skyforge").data ∧
    factoryClassToken (create_module_source "Skyforge" "skyforge") =
      some ("skyforge" ++ "::" ++ "Skyforge" ++ "Module") :=
  ⟨((C8_module_source_semantics "Skyforge" "skyforge" (by decide) (by decide)).1
      "OnStart" (by simp)).2,
   (C8_module_source_semantics "Skyforge" "skyforge" (by decide) (by decide)).2.2.2.2.2.2.2.2.2⟩

/-! ## Path normalization and the layout claim -/

/-- Path `b` lies strictly inside directory `a` (path-prefix with a separator). -/
def strictSubdir (a b : String) : Bool := (a ++ "/").data.isPrefixOf b.data

theorem isPrefixOf_append_left (l A B : List Char) :
    (l ++ A).isPrefixOf (l ++ B) = A.isPrefixOf B := by
  induction l with
  | nil => rfl
  | cons c l ih => simp [List.isPrefixOf, ih]

theorem strictSubdir_append (p x y : String) :
    strictSubdir (p ++ x) (p ++ y) = (x ++ "/").data.isPrefixOf y.data := by
  unfold strictSubdir
  rw [show ((p ++ x ++ "/")).data = p.data ++ (x ++ "/").data from by
    simp [String.data_append]]
  rw [show (p ++ y).data = p.data ++ y.data from rfl]
  exact isPrefixOf_append_left _ _ _

theorem not_strictSubdir_of_le (a b : String)
    (h : b.data.length ≤ a.data.length) : strictSubdir a b = false := by
  unfold strictSubdir
  cases hb : (a ++ "/").data.isPrefixOf b.data
  · rfl
  · exfalso
    have hp := (List.isPrefixOf_iff_prefix.mp hb).length_le
    rw [show (a ++ "/").data = a.data ++ "/".data from rfl] at hp
    have h1 : (a.data ++ "/".data).length = a.data.length + 1 := by
      rw [List.length_append]
      rfl
    omega

theorem head?_append_of_ne_nil {α : Type} (l₁ l₂ : List α) (h : l₁ ≠ []) :
    (l₁ ++ l₂).head? = l₁.head? := by
  cases l₁ <;> simp_all

theorem exists_getLast?_all (p : Char → Bool) (l : List Char) (hne : l ≠ [])
    (h : l.all p = true) : ∃ d, l.getLast? = some d ∧ p d = true := by
  induction l with
  | nil => exact absurd rfl hne
  | cons c l ih =>
    simp only [List.all_cons, Bool.and_eq_true] at h
    cases hl : l with
    | nil => exact ⟨c, by simp, h.1⟩
    | cons d t =>
      subst hl
      obtain ⟨e, he, hpe⟩ := ih (by simp) h.2
      refine ⟨e, ?_, hpe⟩
      rw [List.getLast?_cons_cons]
      exact he

theorem validName_ne_nil (s : String) (h : validName s = true) : s.data ≠ [] := by
  unfold validName at h
  cases hs : s.data with
  | nil => rw [hs] at h; exact absurd h (by simp)
  | cons c cs => simp

theorem validName_head_ne_slash (s : String) (h : validName s = true) :
    s.data.head? ≠ some '/' := by
  unfold validName at h
  cases hs : s.data with
  | nil => rw [hs] at h; exact absurd h (by simp)
  | cons c cs =>
    rw [hs] at h
    simp only [Bool.and_eq_true] at h
    have := h.1
    simp only [isAlphaAscii, Bool.or_eq_true, Bool.and_eq_true, decide_eq_true_eq] at this
    simp only [List.head?_cons, ne_eq, Option.some.injEq]
    intro hc
    rw [hc] at this
    revert this
    decide


theorem os_path_join_normal (a b : String) (hb : b.data.head? ≠ some '/')
    (ha0 : a ≠ "") (ha1 : a.data.getLast? ≠ some '/') :
    os_path_join a b = a ++ "/" ++ b := by
  unfold os_path_join
  rw [if_neg hb, if_neg ha0, if_neg ha1]

theorem ne_empty_of_data_ne_nil (s : String) (h : s.data ≠ []) : s ≠ "" := by
  intro he
  rw [he] at h
  exact h rfl

/-- The project root path ends with the last character of a valid `name`, so
it is non-empty and does not end in a path separator. -/
theorem pj_facts (dir name : String) (hname : validName name = true) :
    os_path_join dir name ≠ "" ∧ (os_path_join dir name).data.getLast? ≠ some '/' := by
  have hne := validName_ne_nil name hname
  have hhead := validName_head_ne_slash name hname
  obtain ⟨d, hd, hdid⟩ := exists_getLast?_all isIdentChar name.data hne
    (validName_all_ident name hname)
  have hdsl : d ≠ '/' := by
    intro hd2
    rw [hd2] at hdid
    revert hdid
    decide
  unfold os_path_join
  rw [if_neg hhead]
  split_ifs with h1 h2
  · exact ⟨ne_empty_of_data_ne_nil _ hne, by rw [hd]; simp [hdsl]⟩
  · constructor
    · apply ne_empty_of_data_ne_nil
      rw [show (dir ++ name).data = dir.data ++ name.data from rfl]
      simp [hne]
    · rw [show (dir ++ name).data = dir.data ++ name.data from rfl,
        List.getLast?_append_of_ne_nil _ hne, hd]
      simp [hdsl]
  · constructor
    · apply ne_empty_of_data_ne_nil
      rw [show (dir ++ "/" ++ name).data = (dir ++ "/").data ++ name.data from rfl]
      simp [hne]
    · rw [show (dir ++ "/" ++ name).data = (dir ++ "/").data ++ name.data from rfl,
        List.getLast?_append_of_ne_nil _ hne, hd]
      simp [hdsl]

/-- Claim C7: layout shape and ordering.  The planned directory list is
exactly the project root and its `module/`, `assets/`, `data/`, `config/`
children; the planned file list is exactly the seven files, each paired with
its renderer's output; and the directory list is parent-before-child: a
directory strictly inside another one appears strictly later in the list. -/
theorem C7_layout_shape_and_order (name ns dir : String) (hname : validName name = true) :
    planDirs (os_path_join dir name) =
      [os_path_join dir name,
       os_path_join dir name ++ "/" ++ "module",
       os_path_join dir name ++ "/" ++ "assets",
       os_path_join dir name ++ "/" ++ "data",
       os_path_join dir name ++ "/" ++ "config"] ∧
    planFiles (os_path_join dir name) name ns =
      [(os_path_join dir name ++ "/" ++ (name ++ ".atlas"), create_project_file name ns "0.1.0"),
       (os_path_join dir name ++ "/" ++ "Plugin.toml", create_plugin_toml name ns "0.1.0"),
       (os_path_join dir name ++ "/" ++ "CMakeLists.txt", create_root_cmakelists name),
       (os_path_join dir name ++ "/" ++ "module" ++ "/" ++ "CMakeLists.txt",
         create_module_cmakelists name),
       (os_path_join dir name ++ "/" ++ "module" ++ "/" ++ (name ++ "Module.h"),
         create_module_header name ns),
       (os_path_join dir name ++ "/" ++ "module" ++ "/" ++ (name ++ "Module.cpp"),
         create_module_source name ns),
       (os_path_join dir name ++ "/" ++ "config" ++ "/" ++ "runtime.json",
         create_runtime_json)] ∧
    (∀ i j : Nat, ∀ a b : String,
      (planDirs (os_path_join dir name)).get? i = some a →
      (planDirs (os_path_join dir name)).get? j = some b →
      strictSubdir a b = true → i < j) := by
  obtain ⟨hpjne, hpjlast⟩ := pj_facts dir name hname
  have hneN := validName_ne_nil name hname
  have hhead := validName_head_ne_slash name hname
  have hjoin : ∀ b : String, b.data.head? ≠ some '/' →
      os_path_join (os_path_join dir name) b = os_path_join dir name ++ "/" ++ b :=
    fun b hb => os_path_join_normal _ b hb hpjne hpjlast
  have hMne : os_path_join dir name ++ "/" ++ "module" ≠ "" := by
    apply ne_empty_of_data_ne_nil
    rw [show (os_path_join dir name ++ "/" ++ "module").data =
      (os_path_join dir name ++ "/").data ++ "module".data from rfl]
    simp
  have hMlast : (os_path_join dir name ++ "/" ++ "module").data.getLast? ≠ some '/' := by
    rw [show (os_path_join dir name ++ "/" ++ "module").data =
      (os_path_join dir name ++ "/").data ++ "module".data from rfl,
      List.getLast?_append_of_ne_nil _ (by decide)]
    decide
  have hCne : os_path_join dir name ++ "/" ++ "config" ≠ "" := by
    apply ne_empty_of_data_ne_nil
    rw [show (os_path_join dir name ++ "/" ++ "config").data =
      (os_path_join dir name ++ "/").data ++ "config".data from rfl]
    simp
  have hClast : (os_path_join dir name ++ "/" ++ "config").data.getLast? ≠ some '/' := by
    rw [show (os_path_join dir name ++ "/" ++ "config").data =
      (os_path_join dir name ++ "/").data ++ "config".data from rfl,
      List.getLast?_append_of_ne_nil _ (by decide)]
    decide
  have hheadA : (name ++ ".atlas").data.head? ≠ some '/' := by
    rw [show (name ++ ".atlas").data = name.data ++ ".atlas".data from rfl,
      head?_append_of_ne_nil _ _ hneN]
    exact hhead
  have hheadH : (name ++ "Module.h").data.head? ≠ some '/' := by
    rw [show (name ++ "Module.h").data = name.data ++ "Module.h".data from rfl,
      head?_append_of_ne_nil _ _ hneN]
    exact hhead
  have hheadC : (name ++ "Module.cpp").data.head? ≠ some '/' := by
    rw [show (name ++ "Module.cpp").data = name.data ++ "Module.cpp".data from rfl,
      head?_append_of_ne_nil _ _ hneN]
    exact hhead
  have hdirs : planDirs (os_path_join dir name) =
      [os_path_join dir name,
       os_path_join dir name ++ "/" ++ "module",
       os_path_join dir name ++ "/" ++ "assets",
       os_path_join dir name ++ "/" ++ "data",
       os_path_join dir name ++ "/" ++ "config"] := by
    unfold planDirs
    rw [hjoin "module" (by decide), hjoin "assets" (by decide),
      hjoin "data" (by decide), hjoin "config" (by decide)]
  refine ⟨hdirs, ?_, ?_⟩
  · unfold planFiles
    rw [hjoin "module" (by decide), hjoin "config" (by decide),
      hjoin (name ++ ".atlas") hheadA, hjoin "Plugin.toml" (by decide),
      hjoin "CMakeLists.txt" (by decide),
      os_path_join_normal _ "CMakeLists.txt" (by decide) hMne hMlast,
      os_path_join_normal _ (name ++ "Module.h") hheadH hMne hMlast,
      os_path_join_normal _ (name ++ "Module.cpp") hheadC hMne hMlast,
      os_path_join_normal _ "runtime.json" (by decide) hCne hClast]
  · intro i j a b ha hb h
    rw [hdirs] at ha hb
    have hi : i < 5 := by
      by_contra hge
      rw [List.get?_eq_none.mpr (by simp; omega)] at ha
      exact Option.noConfusion ha
    have hj : j < 5 := by
      by_contra hge
      rw [List.get?_eq_none.mpr (by simp; omega)] at hb
      exact Option.noConfusion hb
    interval_cases i <;> interval_cases j <;>
      simp only [List.get?_cons_zero, List.get?_cons_succ] at ha hb
    · have ha2 := Option.some.inj ha
      have hb2 := Option.some.inj hb
      rw [← ha2, ← hb2] at h
      rw [not_strictSubdir_of_le _ _ (Nat.le_refl _)] at h
      exact absurd h (by decide)
    · decide
    · decide
    · decide
    · decide
    · have ha2 := Option.some.inj ha
      have hb2 := Option.some.inj hb
      rw [← ha2, ← hb2] at h
      rw [not_strictSubdir_of_le _ _ (by
        rw [show (os_path_join dir name ++ "/" ++ "module").data =
          (os_path_join dir name).data ++ ("/".data ++ "module".data) from by
          simp [String.data_append, List.append_assoc]]
        rw [List.length_append]
        exact Nat.le_add_right _ _)] at h
      exact absurd h (by decide)
    · have ha2 := Option.some.inj ha
      have hb2 := Option.some.inj hb
      rw [← ha2, ← hb2] at h
      rw [strictSubdir_append] at h
      exact absurd h (by decide)
    · decide
    · decide
    · decide
    · have ha2 := Option.some.inj ha
      have hb2 := Option.some.inj hb
      rw [← ha2, ← hb2] at h
      rw [not_strictSubdir_of_le _ _ (by
        rw [show (os_path_join dir name ++ "/" ++ "assets").data =
          (os_path_join dir name).data ++ ("/".data ++ "assets".data) from by
          simp [String.data_append, List.append_assoc]]
        rw [List.length_append]
        exact Nat.le_add_right _ _)] at h
      exact absurd h (by decide)
    · have ha2 := Option.some.inj ha
      have hb2 := Option.some.inj hb
      rw [← ha2, ← hb2] at h
      rw [strictSubdir_append] at h
      exact absurd h (by decide)
    · have ha2 := Option.some.inj ha
      have hb2 := Option.some.inj hb
      rw [← ha2, ← hb2] at h
      rw [strictSubdir_append] at h
      exact absurd h (by decide)
    · decide
    · decide
    · have ha2 := Option.some.inj ha
      have hb2 := Option.some.inj hb
      rw [← ha2, ← hb2] at h
      rw [not_strictSubdir_of_le _ _ (by
        rw [show (os_path_join dir name ++ "/" ++ "data").data =
          (os_path_join dir name).data ++ ("/".data ++ "data".data) from by
          simp [String.data_append, List.append_assoc]]
        rw [List.length_append]
        exact Nat.le_add_right _ _)] at h
      exact absurd h (by decide)
    · have ha2 := Option.some.inj ha
      have hb2 := Option.some.inj hb
      rw [← ha2, ← hb2] at h
      rw [strictSubdir_append] at h
      exact absurd h (by decide)
    · have ha2 := Option.some.inj ha
      have hb2 := Option.some.inj hb
      rw [← ha2, ← hb2] at h
      rw [strictSubdir_append] at h
      exact absurd h (by decide)
    · have ha2 := Option.some.inj ha
      have hb2 := Option.some.inj hb
      rw [← ha2, ← hb2] at h
      rw [strictSubdir_append] at h
      exact absurd h (by decide)
    · decide
    · have ha2 := Option.some.inj ha
      have hb2 := Option.some.inj hb
      rw [← ha2, ← hb2] at h
      rw [not_strictSubdir_of_le _ _ (by
        rw [show (os_path_join dir name ++ "/" ++ "config").data =
          (os_path_join dir name).data ++ ("/".data ++ "config".data) from by
          simp [String.data_append, List.append_assoc]]
        rw [List.length_append]
        exact Nat.le_add_right _ _)] at h
      exact absurd h (by decide)
    · have ha2 := Option.some.inj ha
      have hb2 := Option.some.inj hb
      rw [← ha2, ← hb2] at h
      rw [strictSubdir_append] at h
      exact absurd h (by decide)
    · have ha2 := Option.some.inj ha
      have hb2 := Option.some.inj hb
      rw [← ha2, ← hb2] at h
      rw [strictSubdir_append] at h
      exact absurd h (by decide)
    · have ha2 := Option.some.inj ha
      have hb2 := Option.some.inj hb
      rw [← ha2, ← hb2] at h
      rw [strictSubdir_append] at h
      exact absurd h (by decide)
    · have ha2 := Option.some.inj ha
      have hb2 := Option.some.inj hb
      rw [← ha2, ← hb2] at h
      rw [strictSubdir_append] at h
      exact absurd h (by decide)

/-- Witness for C7 at concrete inputs. -/
theorem C7_layout_shape_and_order_witness :
    planDirs (os_path_join "." "Skyforge") =
      [os_path_join "." "Skyforge",
       os_path_join "." "Skyforge" ++ "/" ++ "module",
       os_path_join "." "Skyforge" ++ "/" ++ "assets",
       os_path_join "." "Skyforge" ++ "/" ++ "data",
       os_path_join "." "Skyforge" ++ "/" ++ "config"] ∧
    planFiles (os_path_join "." "Skyforge") "Skyforge" "skyforge" =
      [(os_path_join "." "Skyforge" ++ "/" ++ ("Skyforge" ++ ".atlas"),
         create_project_file "Skyforge" "skyforge" "0.1.0"),
       (os_path_join "." "Skyforge" ++ "/" ++ "Plugin.toml",
         create_plugin_toml "Skyforge" "skyforge" "0.1.0"),
       (os_path_join "." "Skyforge" ++ "/" ++ "CMakeLists.txt",
         create_root_cmakelists "Skyforge"),
       (os_path_join "." "Skyforge" ++ "/" ++ "module" ++ "/" ++ "CMakeLists.txt",
         create_module_cmakelists "Skyforge"),
       (os_path_join "." "Skyforge" ++ "/" ++ "module" ++ "/" ++ ("Skyforge" ++ "Module.h"),
         create_module_header "Skyforge" "skyforge"),
       (os_path_join "." "Skyforge" ++ "/" ++ "module" ++ "/" ++ ("Skyforge" ++ "Module.cpp"),
         create_module_source "Skyforge" "skyforge"),
       (os_path_join "." "Skyforge" ++ "/" ++ "config" ++ "/" ++ "runtime.json",
         create_runtime_json)] ∧
    (∀ i j : Nat, ∀ a b : String,
      (planDirs (os_path_join "." "Skyforge")).get? i = some a →
      (planDirs (os_path_join "." "Skyforge")).get? j = some b →
      strictSubdir a b = true → i < j) :=
  C7_layout_shape_and_order "Skyforge" "skyforge" "." (by decide)
